import Mathlib

/-!
Verification of the OpenFlip PDF-to-flipbook conversion service.

This file gives a shallow embedding of the conversion pipeline
(`app/services.py`), the data model (`app/models.py`) and the editor
routes (`app/routes.py`), and proves the documented properties about it.

Modelling conventions:
* Machine floats (PDF coordinates) are modelled as rationals.
* A stored JSON text column is abstracted by its parse result
  (`Stored := Option Json`): `some j` stands for well-formed text whose
  unique parse is `j`, and `none` for text on which `json.loads` raises
  `json.JSONDecodeError`; `json.dumps` always produces well-formed text
  that parses back to its argument.
* The filesystem is a log of written paths plus a log of created
  directories; external effects that can raise (os.remove, shutil.rmtree,
  session.commit) are driven by an explicit `Oracle`.
* Random identifiers (generate_uuid, share tokens) and datetime.utcnow()
  are parameters of the functions that use them.
-/

namespace OpenFlip

/-- JSON values as produced by Python's json module. Numbers are rationals. -/
inductive Json where
  | null
  | bool (b : Bool)
  | num (q : ℚ)
  | str (s : String)
  | arr (elems : List Json)
  | obj (fields : List (String × Json))

/-- Python truthiness bool(x) of a decoded JSON value. -/
def Json.truthy : Json → Bool
  | .null => false
  | .bool b => b
  | .num q => decide (q ≠ 0)
  | .str s => decide (s ≠ "")
  | .arr l => !l.isEmpty
  | .obj f => !f.isEmpty

/-- lookup d[k] on a JSON object whose key is known to be present
(`Json.null` stands for the unused missing/other cases). -/
def Json.get (j : Json) (k : String) : Json :=
  match j with
  | .obj fields => (List.lookup k fields).getD Json.null
  | _ => Json.null

/-- whether a JSON object carries the given key. -/
def Json.hasKey (j : Json) (k : String) : Bool :=
  match j with
  | .obj fields => fields.any (fun kv => kv.1 == k)
  | _ => false

/-- the keys of a JSON object, in order. -/
def Json.keys : Json → List String
  | .obj fields => fields.map Prod.fst
  | _ => []

/-- whether a JSON value is an object (a Python dict). -/
def Json.isObj : Json → Bool
  | .obj _ => true
  | _ => false

/-- a stored JSON text column, abstracted by its parse result. -/
abbrev Stored : Type := Option Json

/-- json.dumps: serializing yields well-formed text that parses back. -/
def dumps (j : Json) : Stored := some j

/-- json.loads: the unique parse of the text, or a json.JSONDecodeError. -/
def loads : Stored → Except Unit Json
  | some j => .ok j
  | none => .error ()

/-! String helpers mirroring the Python string methods used by the code. -/

/-- characters with every non-overlapping occurrence of `pat` replaced by
`repl`, scanning left to right (Python str.replace). The first argument is
fuel, instantiated to the length of the scanned list. -/
def replaceChars (pat repl : List Char) : Nat → List Char → List Char
  | _, [] => []
  | 0, s => s
  | fuel + 1, c :: cs =>
    if pat ≠ [] ∧ pat.isPrefixOf (c :: cs) then
      repl ++ replaceChars pat repl fuel (List.drop pat.length (c :: cs))
    else
      c :: replaceChars pat repl fuel cs

/-- Python s.replace(pat, repl) for a nonempty pattern. -/
def pyReplace (s pat repl : String) : String :=
  ⟨replaceChars pat.data repl.data s.data.length s.data⟩

/-- worker for Python str.title(): a letter is uppercased iff the previous
character is not a letter, and lowercased otherwise; non-letters are kept. -/
def titleChars : List Char → Bool → List Char
  | [], _ => []
  | c :: cs, prevCased =>
    if c.isAlpha then
      (if prevCased then c.toLower else c.toUpper) :: titleChars cs true
    else
      c :: titleChars cs false

/-- Python str.title() (ASCII view, as used on filenames). -/
def pyTitle (s : String) : String := ⟨titleChars s.data false⟩

/-- title computation of PDFService.process_pdf step 4 (services.py line
300): custom_title or filename.replace(".pdf", "").replace("_", " ")
.title(); a None or empty custom title falls back to the derived one. -/
def computeTitle (custom_title : Option String) (filename : String) : String :=
  match custom_title with
  | some t =>
    if t ≠ "" then t
    else pyTitle (pyReplace (pyReplace filename ".pdf" "") "_" " ")
  | none => pyTitle (pyReplace (pyReplace filename ".pdf" "") "_" " ")

/-- Modelled from the spec (section 4.3 step 6): the title derived "from the
filename with the extension stripped and separators normalized to spaces,
and optionally title-cased". The extension is everything from the final dot
of the name; separators are underscores. Used only to compare the spec's
description of the title rule with the code's actual computation. -/
def stripExtChars : List Char → List Char
  | [] => []
  | c :: cs => if c = '.' ∧ ¬ cs.contains '.' then [] else c :: stripExtChars cs

/-- Modelled from the spec (section 4.3 step 6): see `stripExtChars`. -/
def specDeriveTitle (filename : String) : String :=
  pyTitle (pyReplace ⟨stripExtChars filename.data⟩ "_" " ")

/-- Modelled from the spec (section 4.3 step 6): user title when given,
otherwise the spec's derived title. -/
def specComputeTitle (custom_title : Option String) (filename : String) : String :=
  match custom_title with
  | some t => t
  | none => specDeriveTitle filename

/-! Data model: the three table row types of app/models.py. Timestamps are
abstract ticks (Nat). -/

/-- a row of table flipbook (models.py 23-38). -/
structure FlipbookRow where
  id : String
  title : String
  path_pdf : String := ""
  style_json : Stored := dumps (Json.obj [])
  share_token : String
  created_at : Nat
  updated_at : Nat

/-- a row of table page (models.py 75-90). -/
structure PageRow where
  id : Nat
  flipbook_id : String
  page_num : Nat
  image_path : String
  width : Nat := 0
  height : Nat := 0

/-- a row of table widget (models.py 107-136). -/
structure WidgetRow where
  id : Nat
  page_id : Nat
  type : String
  props_json : Stored := dumps (Json.obj [])
  geometry_json : Stored := dumps (Json.obj [])
  z_index : Int := 0

/-- the relational store. -/
structure DB where
  flipbooks : List FlipbookRow
  pages : List PageRow
  widgets : List WidgetRow

/-- Widget.props property (models.py 138-143): json.loads of the stored
text, degrading to the empty dict when loading raises JSONDecodeError. -/
def Widget.props (w : WidgetRow) : Json :=
  match loads w.props_json with
  | .ok j => j
  | .error _ => Json.obj []

/-- Widget.geometry property (models.py 149-154): same reading discipline
as `Widget.props`. -/
def Widget.geometry (w : WidgetRow) : Json :=
  match loads w.geometry_json with
  | .ok j => j
  | .error _ => Json.obj []

/-- Flipbook.style property (models.py 48-53): empty text short-circuits to
the empty dict, otherwise json.loads with JSONDecodeError degrading to the
empty dict. In the `Stored` abstraction empty text is unparseable text, so
both failure paths coincide. -/
def Flipbook.style (f : FlipbookRow) : Json :=
  match loads f.style_json with
  | .ok j => j
  | .error _ => Json.obj []

/-! PDF model and exceptions. -/

/-- exceptions raised by the service layer and the external libraries. -/
inductive PyErr where
  | pdfConversionError (msg : String)
  | otherError (msg : String)
  | httpException (status : Nat) (detail : String)
deriving DecidableEq

/-- str(e) of an exception. -/
def PyErr.msg : PyErr → String
  | .pdfConversionError m => m
  | .otherError m => m
  | .httpException _ d => d

/-- one entry of page.get_links(): the optional "uri" value and the "from"
rectangle (x0, y0, width, height) in page coordinates. -/
structure PdfLink where
  uri : Option String
  x0 : ℚ
  y0 : ℚ
  width : ℚ
  height : ℚ

/-- one page of an opened document: the outcome of rasterizing it (the
pixel width and height of the pixmap, or the message of the exception the
external renderer/encoder raises), and its link annotations in source
order. -/
structure PdfPage where
  render : Except String (Nat × Nat)
  links : List PdfLink

/-- a PDF file as seen by fitz.open: its pages, or the message of the
exception raised on open (corrupt, encrypted or unsupported file). -/
inductive PdfFile where
  | ok (pages : List PdfPage)
  | bad (err : String)

/-- Python round(x, 2) on the rational model (ties round half up here; no
verified property depends on tie behaviour). -/
def round2 (q : ℚ) : ℚ := (round (q * 100) : ℚ) / 100

/-- whether a get_links entry passes the `if uri:` guard (a present,
non-empty "uri" value). -/
def uriTruthy (link : PdfLink) : Bool :=
  match link.uri with
  | some u => decide (u ≠ "")
  | none => false

/-- the dict appended per retained link by extract_links_from_page
(services.py 152-158). -/
def linkEntry (link : PdfLink) : Json :=
  Json.obj [("url", Json.str (link.uri.getD "")),
    ("x", Json.num (round2 link.x0)),
    ("y", Json.num (round2 link.y0)),
    ("width", Json.num (round2 link.width)),
    ("height", Json.num (round2 link.height))]

/-- PDFService.extract_links_from_page (services.py 135-159): one dict per
link annotation whose "uri" value is truthy, carrying the url and the
rectangle rounded to two decimals; annotations without a URI are skipped.
The page_num argument is accepted but not used, as in the source. -/
def extract_links_from_page (page : PdfPage) (page_num : Nat) : List Json :=
  page.links.filterMap fun link =>
    match link.uri with
    | some uri =>
      if uri ≠ "" then
        some (Json.obj [("url", Json.str uri),
          ("x", Json.num (round2 link.x0)),
          ("y", Json.num (round2 link.y0)),
          ("width", Json.num (round2 link.width)),
          ("height", Json.num (round2 link.height))])
      else none
    | none => none

/-! Filesystem model and storage layout. -/

/-- on-disk state: a log of written file paths and of created directories.
Rewriting an existing path appends a duplicate entry; deletion removes all
entries of the path, so membership means existence. -/
structure FSState where
  files : List String
  dirs : List String

/-- one file write (open(path, "wb")). -/
def addFile (fs : FSState) (p : String) : FSState :=
  { fs with files := fs.files ++ [p] }

/-- one mkdir(exist_ok=True). -/
def addDir (fs : FSState) (p : String) : FSState :=
  { fs with dirs := fs.dirs ++ [p] }

/-- storage roots of config.py (Settings.UPLOAD_DIR and Settings.PAGES_DIR,
relative to the application base directory). -/
def UPLOAD_DIR : String := "storage/uploads"

/-- see `UPLOAD_DIR`. -/
def PAGES_DIR : String := "storage/pages"

/-- the path the uploaded PDF is saved at (save_pdf_async, services.py 90). -/
def pdfPathOf (doc_id : String) : String := UPLOAD_DIR ++ "/" ++ doc_id ++ ".pdf"

/-- the per-document pages directory (services.py 108 and 209). -/
def pagesDirOf (doc_id : String) : String := PAGES_DIR ++ "/" ++ doc_id

/-- the on-disk path of one rendered page image (services.py 225-226). -/
def pageImageFile (doc_id : String) (n : Nat) : String :=
  pagesDirOf doc_id ++ "/page_" ++ toString n ++ ".webp"

/-- whether path f lies below directory dir. -/
def isUnderDir (dir f : String) : Bool := (dir ++ "/").data.isPrefixOf f.data

/-- injected behaviour of the external effects that may raise: os.remove,
shutil.rmtree (per path) and session.commit. `some m` means the call raises
an exception whose str() is m. -/
structure Oracle where
  removeFails : String → Option String := fun _ => none
  rmtreeFails : String → Option String := fun _ => none
  commitFails : Option String := none

/-- PDFService.delete_file_async (services.py 116-120): a missing path is a
no-op, otherwise os.remove, which may raise. -/
def delete_file_async (o : Oracle) (p : String) (fs : FSState) :
    (Except PyErr Unit) × FSState :=
  if p ∈ fs.files then
    match o.removeFails p with
    | some m => (.error (.otherError m), fs)
    | none => (.ok (), { fs with files := fs.files.filter (fun f => f ≠ p) })
  else (.ok (), fs)

/-- PDFService.delete_dir_async (services.py 122-129): a missing path is a
no-op, otherwise shutil.rmtree, which may raise; on success the directory
and everything below it disappear. -/
def delete_dir_async (o : Oracle) (p : String) (fs : FSState) :
    (Except PyErr Unit) × FSState :=
  if p ∈ fs.dirs then
    match o.rmtreeFails p with
    | some m => (.error (.otherError m), fs)
    | none =>
      (.ok (), { files := fs.files.filter (fun f => !(isUnderDir p f)),
                 dirs := fs.dirs.filter (fun d => d ≠ p ∧ !(isUnderDir p d)) })
  else (.ok (), fs)

/-! Conversion pipeline (services.py). -/

/-- PDFService.render_page_to_webp (services.py 161-195): rasterize the
page (the zoom matrix dpi/72 is applied inside the external renderer) and
write the WebP file at output_path, returning the pixmap dimensions; a
renderer or encoder exception propagates with its message. -/
def render_page_to_webp (page : PdfPage) (output_path : String) (fs : FSState) :
    Except String ((Nat × Nat) × FSState) :=
  match page.render with
  | .error e => .error e
  | .ok wh => .ok (wh, addFile fs output_path)

/-- dataclass PageRenderResult (services.py 40-47). -/
structure PageRenderResult where
  page_num : Nat
  image_path : String
  width : Nat
  height : Nat
  links : List Json

/-- dataclass ConversionResult (services.py 50-55). -/
structure ConversionResult where
  doc_id : String
  page_count : Nat
  pages : List PageRenderResult

/-- the per-page loop of convert_pdf_sync (services.py 220-240) from index
page_idx on; page_num is page_idx + 1. Returns the accumulated results or
the message of the first exception, together with the filesystem state. -/
def convertPages (doc_id : String) :
    List PdfPage → Nat → FSState → (Except String (List PageRenderResult)) × FSState
  | [], _, fs => (.ok [], fs)
  | page :: rest, page_idx, fs =>
    let page_num := page_idx + 1
    match render_page_to_webp page (pageImageFile doc_id page_num) fs with
    | .error e => (.error e, fs)
    | .ok (wh, fs1) =>
      let links := extract_links_from_page page page_num
      match convertPages doc_id rest page_num fs1 with
      | (.error e, fs2) => (.error e, fs2)
      | (.ok prs, fs2) =>
        (.ok ({ page_num := page_num,
                image_path := doc_id ++ "/page_" ++ toString page_num ++ ".webp",
                width := wh.1, height := wh.2, links := links } :: prs), fs2)

/-- PDFService.convert_pdf_sync (services.py 197-251): mkdir the pages
directory, open the PDF (an open failure raises
"Impossible d'ouvrir le PDF: ..."), then run the page loop (any exception
in it raises "Erreur de conversion: ..."). -/
def convert_pdf_sync (pdf : PdfFile) (doc_id : String) (fs : FSState) :
    (Except PyErr ConversionResult) × FSState :=
  let fs0 := addDir fs (pagesDirOf doc_id)
  match pdf with
  | .bad e => (.error (.pdfConversionError ("Impossible d'ouvrir le PDF: " ++ e)), fs0)
  | .ok pages =>
    match convertPages doc_id pages 0 fs0 with
    | (.error e, fs1) => (.error (.pdfConversionError ("Erreur de conversion: " ++ e)), fs1)
    | (.ok prs, fs1) =>
      (.ok { doc_id := doc_id, page_count := pages.length, pages := prs }, fs1)

/-! Persistence of a conversion result (process_pdf, services.py 257-367). -/

/-- the JSON response dict of a successful upload (services.py 348-355). -/
structure UploadResponse where
  id : String
  title : String
  pages : Nat
  thumbnail : String
  created_at : Nat
  updated_at : Nat

/-- sequential primary keys the database assigns at commit time. -/
def assignIds (c : Nat) : List WidgetRow → List WidgetRow
  | [] => []
  | w :: ws => { w with id := c } :: assignIds (c + 1) ws

/-- the link widget row built in step 7 of process_pdf (services.py
326-340) from one extracted link dict. -/
def mkLinkWidget (page_id : Nat) (link : Json) : WidgetRow :=
  { id := 0,
    page_id := page_id,
    type := "link",
    props_json := dumps (Json.obj [("url", link.get "url"),
      ("target", Json.str "_blank")]),
    geometry_json := dumps (Json.obj [("x", link.get "x"), ("y", link.get "y"),
      ("width", link.get "width"), ("height", link.get "height")]),
    z_index := 0 }

/-- accumulator of the page/widget loop of process_pdf: rows added so far
and the next page id session.flush will hand out. -/
structure SessAcc where
  pages : List PageRow
  widgets : List WidgetRow
  nextPageId : Nat

/-- steps 6-7 of process_pdf (services.py 312-341): one Page row per
rendered page (flush assigns its id) followed by one link Widget row per
extracted link of that page. -/
def addPagesAndWidgets (doc_id : String) : List PageRenderResult → SessAcc → SessAcc
  | [], acc => acc
  | pr :: rest, acc =>
    let pid := acc.nextPageId
    let page : PageRow :=
      { id := pid, flipbook_id := doc_id,
        page_num := pr.page_num, image_path := pr.image_path,
        width := pr.width, height := pr.height }
    addPagesAndWidgets doc_id rest
      { pages := acc.pages ++ [page],
        widgets := acc.widgets ++ pr.links.map (mkLinkWidget pid),
        nextPageId := pid + 1 }

/-- the try block of process_pdf (services.py 286-355): create the pages
directory, convert, build the Flipbook/Page/Widget rows and commit them as
one transaction. Errors leave the database untouched. `doc_id`,
`share_token` and `now` stand for generate_id(), the share-token default
and datetime.utcnow(); nextPageId/nextWidgetId are the keys the database
hands out. The uploaded bytes enter as their parse behaviour `pdf`. -/
def process_pdf_body (o : Oracle) (pdf : PdfFile) (filename : String)
    (custom_title : Option String) (doc_id share_token : String) (now : Nat)
    (nextPageId nextWidgetId : Nat) (db : DB) (fs1 : FSState) :
    (Except PyErr UploadResponse) × DB × FSState :=
  let fs2 := addDir fs1 (pagesDirOf doc_id)
  match convert_pdf_sync pdf doc_id fs2 with
  | (.error e, fs3) => (.error e, db, fs3)
  | (.ok result, fs3) =>
    let title := computeTitle custom_title filename
    let flipbook : FlipbookRow :=
      { id := doc_id, title := title,
        path_pdf := pdfPathOf doc_id, share_token := share_token,
        created_at := now, updated_at := now }
    let acc := addPagesAndWidgets doc_id result.pages
      { pages := [], widgets := [], nextPageId := nextPageId }
    match o.commitFails with
    | some m => (.error (.otherError m), db, fs3)
    | none =>
      let db1 : DB :=
        { flipbooks := db.flipbooks ++ [flipbook],
          pages := db.pages ++ acc.pages,
          widgets := db.widgets ++ assignIds nextWidgetId acc.widgets }
      (.ok { id := doc_id, title := title, pages := result.page_count,
             thumbnail := "/pages/" ++ doc_id ++ "/page_1.webp",
             created_at := now, updated_at := now }, db1, fs3)

/-- the two except blocks of process_pdf (services.py 357-367): delete the
saved PDF and the pages directory (these awaits are not guarded, so a
cleanup failure propagates in place of the original error), then re-raise a
conversion error as is and wrap any other error as
"Erreur inattendue: ...". -/
def process_pdf_handler (o : Oracle) (doc_id : String) (e : PyErr) (db1 : DB)
    (fs3 : FSState) : (Except PyErr UploadResponse) × DB × FSState :=
  match delete_file_async o (pdfPathOf doc_id) fs3 with
  | (.error ce, fs4) => (.error ce, db1, fs4)
  | (.ok _, fs4) =>
    match delete_dir_async o (pagesDirOf doc_id) fs4 with
    | (.error ce, fs5) => (.error ce, db1, fs5)
    | (.ok _, fs5) =>
      match e with
      | .pdfConversionError m => (.error (.pdfConversionError m), db1, fs5)
      | e1 => (.error (.pdfConversionError ("Erreur inattendue: " ++ e1.msg)), db1, fs5)

/-- PDFService.process_pdf (services.py 257-367): save the PDF, run the
body, and on any exception run the except blocks. -/
def process_pdf (o : Oracle) (pdf : PdfFile) (filename : String)
    (custom_title : Option String) (doc_id share_token : String) (now : Nat)
    (nextPageId nextWidgetId : Nat) (db : DB) (fs : FSState) :
    (Except PyErr UploadResponse) × DB × FSState :=
  let pdf_path := pdfPathOf doc_id
  let fs1 := addFile fs pdf_path
  match process_pdf_body o pdf filename custom_title doc_id share_token now
      nextPageId nextWidgetId db fs1 with
  | (.ok r, db1, fs3) => (.ok r, db1, fs3)
  | (.error e, db1, fs3) => process_pdf_handler o doc_id e db1 fs3

/-! Editor routes (routes.py). -/

/-- one widget dict of the save request; a `none` field is an absent key,
whose default widget_data.get supplies. -/
structure SaveWidgetData where
  type : Option String := none
  props : Option Json := none
  geometry : Option Json := none
  z_index : Option Int := none

/-- one entry of data["pages"]. -/
structure PageEntry where
  page_num : Option Int := none
  widgets : Option (List SaveWidgetData) := none

/-- the editor save request body; a `none` field is an absent key. -/
structure SaveData where
  title : Option String := none
  style : Option Json := none
  pages : Option (List PageEntry) := none

/-- the widget row built in the save loop (routes.py 438-444). -/
def mkSaveWidget (page_id : Nat) (wd : SaveWidgetData) : WidgetRow :=
  { id := 0, page_id := page_id,
    type := wd.type.getD "link",
    props_json := dumps (wd.props.getD (Json.obj [])),
    geometry_json := dumps (wd.geometry.getD (Json.obj [])),
    z_index := wd.z_index.getD 0 }

/-- pages_by_num lookup (routes.py 422): the dict is built from the
flipbook's pages in order, a later page with the same page_num overwriting
an earlier one. -/
def lookupPageByNum (pages : List PageRow) (n : Int) : Option PageRow :=
  pages.foldl (fun acc p => if (p.page_num : Int) = n then some p else acc) none

/-- the loop of routes.py 424-445: the ids of the pages whose widgets get
deleted and the replacement widget rows, in request order. An entry with a
missing or falsy page_num, or one matching no page of the flipbook, is
skipped. -/
def collectSave (loaded : List PageRow) : List PageEntry → List Nat × List WidgetRow
  | [] => ([], [])
  | entry :: rest =>
    let tail := collectSave loaded rest
    match entry.page_num with
    | none => tail
    | some n =>
      if n = 0 then tail
      else
        match lookupPageByNum loaded n with
        | none => tail
        | some page =>
          (page.id :: tail.1,
           (entry.widgets.getD []).map (mkSaveWidget page.id) ++ tail.2)

/-- replacement of the first row satisfying p (the ORM updates the single
loaded object; ids are primary keys, so at most one row matches). -/
def replaceFirst (l : List FlipbookRow) (p : FlipbookRow → Bool) (x : FlipbookRow) :
    List FlipbookRow :=
  match l with
  | [] => []
  | a :: rest => if p a then x :: rest else a :: replaceFirst rest p x

/-- the JSON response of save_editor_data (routes.py 452-457). -/
structure SaveResponse where
  status : String
  flipbook_id : String
  title : String
  updated_at : Nat

/-- the title update of save_editor_data (routes.py 409-410): applied only
when the "title" key is present and truthy. -/
def applyTitle (fb : FlipbookRow) (t? : Option String) : FlipbookRow :=
  match t? with
  | some t => if t ≠ "" then { fb with title := t } else fb
  | none => fb

/-- the style update of save_editor_data (routes.py 413-414): applied only
when the "style" key is present and truthy. -/
def applyStyle (fb : FlipbookRow) (s? : Option Json) : FlipbookRow :=
  match s? with
  | some s => if s.truthy then { fb with style_json := dumps s } else fb
  | none => fb

/-- the widget changes collected by the page loop, over the request's pages
when the "pages" key is present (routes.py 420). -/
def collectedOf (db : DB) (doc_id : String) (data : SaveData) :
    List Nat × List WidgetRow :=
  match data.pages with
  | some entries =>
    collectSave (db.pages.filter (fun p => p.flipbook_id == doc_id)) entries
  | none => ([], [])

/-- save_editor_data (routes.py 352-457): load the flipbook (404 when
missing), apply truthy title/style updates, bump updated_at, then for each
named existing page delete all its widgets and insert the request's
widgets; commit everything at once. -/
def save_editor_data (db : DB) (doc_id : String) (data : SaveData) (now : Nat)
    (nextWidgetId : Nat) : (Except PyErr SaveResponse) × DB :=
  match db.flipbooks.find? (fun f => f.id == doc_id) with
  | none => (.error (.httpException 404 "Flipbook non trouve"), db)
  | some flipbook =>
    let fb3 := { applyStyle (applyTitle flipbook data.title) data.style with
      updated_at := now }
    let collected := collectedOf db doc_id data
    let db1 : DB := {
      flipbooks := replaceFirst db.flipbooks (fun f => f.id == doc_id) fb3,
      pages := db.pages,
      widgets := db.widgets.filter (fun w => !(collected.1.contains w.page_id)) ++
        assignIds nextWidgetId collected.2 }
    (.ok { status := "saved", flipbook_id := doc_id, title := fb3.title,
           updated_at := now }, db1)

/-- one widget dict of the editor read response (routes.py 320-326). -/
structure EditorWidget where
  id : Nat
  type : String
  props : Json
  geometry : Json
  z_index : Int

/-- one page dict of the editor read response (routes.py 313-329). -/
structure EditorPage where
  id : Nat
  page_num : Nat
  image_url : String
  width : Nat
  height : Nat
  widgets : List EditorWidget

/-- the editor read response (routes.py 335-344). -/
structure EditorData where
  flipbook_id : String
  title : String
  page_count : Nat
  style : Json
  pages : List EditorPage

/-- get_editor_data (routes.py 280-349): load the flipbook (404 when
missing), list its pages sorted by page_num, each with its widgets sorted
by z_index (Python's stable sorted), decoding props/geometry through the
degrading properties. -/
def get_editor_data (db : DB) (doc_id : String) : Except PyErr EditorData :=
  match db.flipbooks.find? (fun f => f.id == doc_id) with
  | none => .error (.httpException 404 "Flipbook non trouve")
  | some flipbook =>
    let fbPages := db.pages.filter (fun p => p.flipbook_id == doc_id)
    let sortedPages := List.mergeSort fbPages (fun a b => decide (a.page_num ≤ b.page_num))
    let pages_data := sortedPages.map (fun page =>
      ({ id := page.id, page_num := page.page_num,
         image_url := "/pages/" ++ page.image_path,
         width := page.width, height := page.height,
         widgets := (List.mergeSort (db.widgets.filter (fun w => w.page_id == page.id))
             (fun a b => decide (a.z_index ≤ b.z_index))).map (fun w =>
           { id := w.id, type := w.type, props := Widget.props w,
             geometry := Widget.geometry w, z_index := w.z_index }) } : EditorPage))
    let style_data :=
      if (Flipbook.style flipbook).truthy then Flipbook.style flipbook else Json.obj []
    .ok { flipbook_id := flipbook.id, title := flipbook.title,
          page_count := fbPages.length, style := style_data, pages := pages_data }

/-! Shape projections used to state row properties modulo server-assigned
primary keys. -/

/-- a widget row without its server-assigned id. -/
def widgetShape (w : WidgetRow) : Nat × String × Stored × Stored × Int :=
  (w.page_id, w.type, w.props_json, w.geometry_json, w.z_index)

/-- a page row without its server-assigned id. -/
def pageShape (p : PageRow) : String × Nat × String × Nat × Nat :=
  (p.flipbook_id, p.page_num, p.image_path, p.width, p.height)

/-- the shape of the link widget persisted for one extracted link dict:
type "link", properties url and target _blank, geometry the extracted
rectangle, z-index 0. -/
def linkWidgetShape (page_id : Nat) (link : Json) : Nat × String × Stored × Stored × Int :=
  (page_id, "link",
   dumps (Json.obj [("url", link.get "url"), ("target", Json.str "_blank")]),
   dumps (Json.obj [("x", link.get "x"), ("y", link.get "y"),
     ("width", link.get "width"), ("height", link.get "height")]),
   0)

/-- the observable content of an editor read widget, modulo its id. -/
def editorWidgetView (w : EditorWidget) : String × Json × Json × Int :=
  (w.type, w.props, w.geometry, w.z_index)

/-- the widget content a save request asks for, after the defaults
widget_data.get supplies. -/
def requestWidgetView (wd : SaveWidgetData) : String × Json × Json × Int :=
  (wd.type.getD "link", wd.props.getD (Json.obj []),
   wd.geometry.getD (Json.obj []), wd.z_index.getD 0)

/-! Concrete inputs used by witnesses and counterexamples. -/

/-- the oracle under which no external effect fails. -/
def oracle0 : Oracle := {}

/-- an oracle under which os.remove of the saved PDF of document "d"
raises a permission error. -/
def c5Oracle : Oracle :=
  { removeFails := fun p => if p = pdfPathOf "d" then some "Permission denied" else none }

/-- the empty database. -/
def dbEmpty : DB := { flipbooks := [], pages := [], widgets := [] }

/-- the empty filesystem. -/
def fsEmpty : FSState := { files := [], dirs := [] }

/-- a successful concrete upload run (an empty PDF titled "T"). -/
def c3OkRun : (Except PyErr UploadResponse) × DB × FSState :=
  process_pdf oracle0 (PdfFile.ok []) "a.pdf" (some "T") "d" "t" 5 1 1 dbEmpty fsEmpty

/-- a failing concrete upload run (a PDF that does not open). -/
def c3ErrRun : (Except PyErr UploadResponse) × DB × FSState :=
  process_pdf oracle0 (PdfFile.bad "boom") "a.pdf" (some "T") "d" "t" 5 1 1 dbEmpty fsEmpty

/-- an upload of an empty PDF named my_report.pdf with no explicit title. -/
def c9Run : (Except PyErr UploadResponse) × DB × FSState :=
  process_pdf oracle0 (PdfFile.ok []) "my_report.pdf" none "d" "t" 7 1 1 dbEmpty fsEmpty

/-- a stored flipbook used by the editor-save scenarios. -/
def c6Fb : FlipbookRow := ⟨"d", "T", "", some (Json.obj []), "t", 0, 0⟩

/-- page 1 of that flipbook. -/
def c6P1 : PageRow := ⟨1, "d", 1, "d/page_1.webp", 100, 141⟩

/-- page 2 of that flipbook. -/
def c6P2 : PageRow := ⟨2, "d", 2, "d/page_2.webp", 100, 141⟩

/-- a pre-existing video widget on page 2. -/
def c6W2 : WidgetRow := ⟨7, 2, "video", some (Json.obj []), some (Json.obj []), 1⟩

/-- the stored state the editor-save scenarios start from. -/
def c6Db : DB := ⟨[c6Fb], [c6P1, c6P2], [c6W2]⟩

/-- a save entry replacing page 1's widgets with one link widget. -/
def c6Entry : PageEntry := ⟨some 1, some [⟨some "link", none, none, some 0⟩]⟩

/-- a two-widget save payload (one link, one video) for the round-trip
scenario. -/
def c7Ws : List SaveWidgetData :=
  [⟨some "link", some (Json.obj [("url", Json.str "https://x"),
      ("target", Json.str "_blank")]),
    some (Json.obj [("x", Json.num 1)]), some 0⟩,
   ⟨some "video", none, none, some 1⟩]

/-- a link annotation carrying a URI. -/
def c2Link : PdfLink :=
  { uri := some "https://example.com", x0 := 1, y0 := 2, width := 3, height := 4 }

/-- a page with one URI-carrying link annotation. -/
def c2Page : PdfPage := { render := .ok (100, 200), links := [c2Link] }

/-- a widget whose stored props text is "[1, 2]" (a JSON array) and whose
stored geometry text is "42" (a JSON number): both parse, neither is a map. -/
def c8ArrWidget : WidgetRow :=
  { id := 1, page_id := 1, type := "link",
    props_json := some (Json.arr [Json.num 1, Json.num 2]),
    geometry_json := some (Json.num 42), z_index := 0 }

/-- a widget whose stored props and geometry texts are unparseable. -/
def c8BadWidget : WidgetRow :=
  { id := 2, page_id := 1, type := "link",
    props_json := none, geometry_json := none, z_index := 0 }

/-- a page that renders to a 100 x 141 pixmap and has no links. -/
def c1Page : PdfPage := { render := .ok (100, 141), links := [] }

end OpenFlip

namespace OpenFlip

/-! Theorems. -/

/-- helper: a guarded filterMap is a filter followed by a map. -/
theorem filterMap_guard {α β : Type} (f : α → β) (p : α → Bool) (l : List α) :
    l.filterMap (fun a => if p a then some (f a) else none) =
      (l.filter p).map f := by
  induction l with
  | nil => rfl
  | cons a l ih =>
    rw [List.filterMap_cons, List.filter_cons]
    by_cases h : p a
    · simp only [h, if_pos, List.map_cons, ih]
    · simp only [Bool.not_eq_true] at h
      simp [h, ih]

/-- helper: the body of the extraction loop, rephrased with the guard
predicate and the entry constructor. -/
theorem extract_links_loop_body (link : PdfLink) :
    (match link.uri with
     | some uri =>
       if uri ≠ "" then
         some (Json.obj [("url", Json.str uri),
           ("x", Json.num (round2 link.x0)),
           ("y", Json.num (round2 link.y0)),
           ("width", Json.num (round2 link.width)),
           ("height", Json.num (round2 link.height))])
       else none
     | none => none) =
      if uriTruthy link then some (linkEntry link) else none := by
  cases hl : link.uri with
  | none => simp [uriTruthy, hl]
  | some u =>
    by_cases hu : u = "" <;> simp [uriTruthy, linkEntry, hl, hu]

/-- helper: the filterMap of extract_links_from_page is a filter-then-map. -/
theorem extract_links_eq_filter_map (page : PdfPage) (page_num : Nat) :
    extract_links_from_page page page_num =
      (page.links.filter uriTruthy).map linkEntry := by
  unfold extract_links_from_page
  rw [List.filterMap_congr (fun a _ => extract_links_loop_body a)]
  exact filterMap_guard linkEntry uriTruthy page.links

/-- C2: the claim as stated is false: the extracted entry for a
URI-carrying link annotation does not carry a "page_number" key (the
page_num argument of extract_links_from_page is unused); its keys are
exactly url, x, y, width and height. -/
theorem extract_links_no_page_number :
    ((extract_links_from_page c2Page 1).map Json.keys) =
      [["url", "x", "y", "width", "height"]] ∧
    ((extract_links_from_page c2Page 1).map (fun e => e.hasKey "page_number")) =
      [false] := by
  exact ⟨rfl, rfl⟩

/-- C2 (amended): extract_links_from_page returns, in source order, one
entry per link annotation whose uri is present and non-empty, of shape
left-to-right url, x, y, width, height (no page_number key), with the
rectangle's coordinates rounded to two decimals; other annotations
contribute nothing, and an empty result is possible. -/
theorem extract_links_spec (page : PdfPage) (page_num : Nat) :
    extract_links_from_page page page_num =
      (page.links.filter uriTruthy).map linkEntry ∧
    (∀ e ∈ extract_links_from_page page page_num,
      e.keys = ["url", "x", "y", "width", "height"]) ∧
    (extract_links_from_page page page_num).length =
      (page.links.filter uriTruthy).length := by
  refine ⟨extract_links_eq_filter_map page page_num, ?_, ?_⟩
  · intro e he
    rw [extract_links_eq_filter_map] at he
    obtain ⟨l, _, rfl⟩ := List.mem_map.mp he
    rfl
  · rw [extract_links_eq_filter_map, List.length_map]

/-- C2 (amended), witnessed at the concrete page `c2Page`. -/
theorem extract_links_spec_witness :
    (linkEntry c2Link).keys = ["url", "x", "y", "width", "height"] := by
  refine (extract_links_spec c2Page 1).2.1 _ ?_
  rw [extract_links_eq_filter_map]
  simp [c2Page, c2Link, uriTruthy]

/-- C8: the claim as stated is false: stored text that parses to a JSON
value other than an object is returned as-is by the props/geometry
properties, so a read can yield a non-map. The widget corresponds to
stored texts "[1, 2]" and "42". -/
theorem widget_props_non_map :
    Widget.props c8ArrWidget = Json.arr [Json.num 1, Json.num 2] ∧
    (Widget.props c8ArrWidget).isObj = false ∧
    Widget.geometry c8ArrWidget = Json.num 42 ∧
    (Widget.geometry c8ArrWidget).isObj = false := by
  exact ⟨rfl, rfl, rfl, rfl⟩

/-- C8 (amended): reading Widget.props or Widget.geometry never raises:
unparseable stored text degrades to the empty map, and parseable text
yields exactly its parsed value (which is a map whenever the stored text
encodes an object, but need not be one otherwise). -/
theorem widget_props_geometry_read (w : WidgetRow) :
    (w.props_json = none → Widget.props w = Json.obj []) ∧
    (∀ j, w.props_json = some j → Widget.props w = j) ∧
    (w.geometry_json = none → Widget.geometry w = Json.obj []) ∧
    (∀ j, w.geometry_json = some j → Widget.geometry w = j) := by
  refine ⟨fun h => ?_, fun j h => ?_, fun h => ?_, fun j h => ?_⟩ <;>
    simp [Widget.props, Widget.geometry, loads, h]

/-- C8 (amended), witnessed at widgets with unparseable and with
array-valued stored text. -/
theorem widget_props_geometry_read_witness :
    Widget.props c8BadWidget = Json.obj [] ∧
    Widget.geometry c8BadWidget = Json.obj [] ∧
    Widget.props c8ArrWidget = Json.arr [Json.num 1, Json.num 2] :=
  ⟨(widget_props_geometry_read c8BadWidget).1 rfl,
   (widget_props_geometry_read c8BadWidget).2.2.1 rfl,
   (widget_props_geometry_read c8ArrWidget).2.1 _ rfl⟩

/-- helper: the page loop of convert_pdf_sync on an all-renderable list of
pages succeeds, numbers the results consecutively from the start index + 1,
derives each image path from the page number, and writes exactly one image
file per page, in order. -/
theorem convertPages_ok (doc_id : String) (ps : List PdfPage) :
    ∀ (k : Nat) (fs : FSState), (∀ p ∈ ps, ∃ wh, p.render = Except.ok wh) →
    ∃ prs fs1, convertPages doc_id ps k fs = (.ok prs, fs1) ∧
      prs.length = ps.length ∧
      prs.map (fun pr => pr.page_num) = List.range' (k + 1) ps.length ∧
      (∀ pr ∈ prs,
        pr.image_path = doc_id ++ "/page_" ++ toString pr.page_num ++ ".webp") ∧
      fs1.files = fs.files ++ (List.range' (k + 1) ps.length).map (pageImageFile doc_id) ∧
      fs1.dirs = fs.dirs := by
  induction ps with
  | nil => intro k fs _; exact ⟨[], fs, rfl, rfl, rfl, by simp, by simp, rfl⟩
  | cons page rest ih =>
    intro k fs hr
    obtain ⟨wh, hwh⟩ := hr page (List.mem_cons_self page rest)
    obtain ⟨prs, fs2, heq, hlen, hnums, hpaths, hfiles, hdirs⟩ :=
      ih (k + 1) (addFile fs (pageImageFile doc_id (k + 1)))
        (fun p hp => hr p (List.mem_cons_of_mem page hp))
    refine ⟨{ page_num := k + 1,
              image_path := doc_id ++ "/page_" ++ toString (k + 1) ++ ".webp",
              width := wh.1, height := wh.2,
              links := extract_links_from_page page (k + 1) } :: prs, fs2, ?_, ?_, ?_, ?_, ?_, ?_⟩
    · unfold convertPages render_page_to_webp
      rw [hwh]
      simp only []
      rw [heq]
    · simpa using hlen
    · rw [List.map_cons, hnums, List.length_cons, List.range'_succ]
    · intro pr hpr
      rcases List.mem_cons.mp hpr with h | h
      · rw [h]
      · exact hpaths pr h
    · rw [hfiles, List.length_cons, List.range'_succ, List.map_cons]
      simp [addFile, List.append_assoc]
    · exact hdirs

/-- C1: for a valid PDF (it opens and every page renders), convert_pdf_sync
returns a ConversionResult whose page_count is the PDF's page count N, whose
pages list has exactly N entries with page_num running 1..N contiguously,
each carrying image path "{doc_id}/page_{n}.webp", and exactly N image
files page_1.webp .. page_N.webp are written under the document's pages
directory. -/
theorem convert_pdf_sync_ok (ps : List PdfPage) (doc_id : String) (fs : FSState)
    (hrender : ∀ p ∈ ps, ∃ wh, p.render = Except.ok wh) :
    ∃ result fs1, convert_pdf_sync (PdfFile.ok ps) doc_id fs = (.ok result, fs1) ∧
      result.page_count = ps.length ∧
      result.pages.length = ps.length ∧
      result.pages.map (fun pr => pr.page_num) = List.range' 1 ps.length ∧
      (∀ pr ∈ result.pages,
        pr.image_path = doc_id ++ "/page_" ++ toString pr.page_num ++ ".webp") ∧
      fs1.files = fs.files ++ (List.range' 1 ps.length).map (pageImageFile doc_id) := by
  obtain ⟨prs, fs1, heq, hlen, hnums, hpaths, hfiles, hdirs⟩ :=
    convertPages_ok doc_id ps 0 (addDir fs (pagesDirOf doc_id)) hrender
  refine ⟨{ doc_id := doc_id, page_count := ps.length, pages := prs }, fs1, ?_,
    rfl, hlen, hnums, hpaths, ?_⟩
  · unfold convert_pdf_sync
    simp only []
    rw [heq]
  · rw [hfiles]; rfl

/-- C1, witnessed on a concrete two-page PDF. -/
theorem convert_pdf_sync_ok_witness :
    ∃ result fs1,
      convert_pdf_sync (PdfFile.ok [c1Page, c1Page]) "doc" ⟨[], []⟩ = (.ok result, fs1) ∧
      result.page_count = 2 ∧
      result.pages.length = 2 ∧
      result.pages.map (fun pr => pr.page_num) = List.range' 1 2 ∧
      (∀ pr ∈ result.pages,
        pr.image_path = "doc" ++ "/page_" ++ toString pr.page_num ++ ".webp") ∧
      fs1.files = [] ++ (List.range' 1 2).map (pageImageFile "doc") := by
  have h := convert_pdf_sync_ok [c1Page, c1Page] "doc" ⟨[], []⟩ (by
    intro p hp
    rcases List.mem_cons.mp hp with h | h
    · exact ⟨(100, 141), by rw [h]; rfl⟩
    · rcases List.mem_cons.mp h with h1 | h1
      · exact ⟨(100, 141), by rw [h1]; rfl⟩
      · exact absurd h1 (List.not_mem_nil p))
  simpa using h

/-- helper: the page loop never touches directories. -/
theorem convertPages_dirs (doc_id : String) (ps : List PdfPage) :
    ∀ (k : Nat) (fs : FSState), (convertPages doc_id ps k fs).2.dirs = fs.dirs := by
  induction ps with
  | nil => intro k fs; rfl
  | cons page rest ih =>
    intro k fs
    unfold convertPages render_page_to_webp
    cases page.render with
    | error e => rfl
    | ok wh =>
      simp only []
      have h := ih (k + 1) (addFile fs (pageImageFile doc_id (k + 1)))
      cases hc : convertPages doc_id rest (k + 1) (addFile fs (pageImageFile doc_id (k + 1))) with
      | mk r fs2 =>
        rw [hc] at h
        cases r with
        | error e => exact h
        | ok prs => exact h

/-- helper: the page loop only appends to the file log. -/
theorem convertPages_files_mono (doc_id : String) (ps : List PdfPage) :
    ∀ (k : Nat) (fs : FSState),
      ∃ l, (convertPages doc_id ps k fs).2.files = fs.files ++ l := by
  induction ps with
  | nil => intro k fs; exact ⟨[], by simp [convertPages]⟩
  | cons page rest ih =>
    intro k fs
    unfold convertPages render_page_to_webp
    cases page.render with
    | error e => exact ⟨[], by simp⟩
    | ok wh =>
      simp only []
      obtain ⟨l, hl⟩ := ih (k + 1) (addFile fs (pageImageFile doc_id (k + 1)))
      cases hc : convertPages doc_id rest (k + 1) (addFile fs (pageImageFile doc_id (k + 1))) with
      | mk r fs2 =>
        rw [hc] at hl
        cases r with
        | error e =>
          exact ⟨pageImageFile doc_id (k + 1) :: l, by
            simpa [addFile, List.append_assoc] using hl⟩
        | ok prs =>
          exact ⟨pageImageFile doc_id (k + 1) :: l, by
            simpa [addFile, List.append_assoc] using hl⟩

/-- helper: convert_pdf_sync creates exactly the pages directory entry. -/
theorem convert_pdf_sync_dirs (pdf : PdfFile) (doc_id : String) (fs : FSState) :
    (convert_pdf_sync pdf doc_id fs).2.dirs = fs.dirs ++ [pagesDirOf doc_id] := by
  unfold convert_pdf_sync
  cases pdf with
  | bad e => rfl
  | ok pages =>
    simp only []
    have h := convertPages_dirs doc_id pages 0 (addDir fs (pagesDirOf doc_id))
    cases hc : convertPages doc_id pages 0 (addDir fs (pagesDirOf doc_id)) with
    | mk r fs1 =>
      rw [hc] at h
      cases r with
      | error e => exact h
      | ok prs => exact h

/-- helper: convert_pdf_sync only appends to the file log. -/
theorem convert_pdf_sync_files_mono (pdf : PdfFile) (doc_id : String) (fs : FSState) :
    ∃ l, (convert_pdf_sync pdf doc_id fs).2.files = fs.files ++ l := by
  unfold convert_pdf_sync
  cases pdf with
  | bad e => exact ⟨[], by simp [addDir]⟩
  | ok pages =>
    simp only []
    obtain ⟨l, hl⟩ := convertPages_files_mono doc_id pages 0 (addDir fs (pagesDirOf doc_id))
    cases hc : convertPages doc_id pages 0 (addDir fs (pagesDirOf doc_id)) with
    | mk r fs1 =>
      rw [hc] at hl
      cases r with
      | error e => exact ⟨l, by simpa [addDir] using hl⟩
      | ok prs => exact ⟨l, by simpa [addDir] using hl⟩

/-- helper: the row-building loop of process_pdf appends one page row per
conversion page, with its fields copied over, and one widget row per link,
attached to its page's id. -/
theorem addPagesAndWidgets_spec (doc_id : String) (prs : List PageRenderResult) :
    ∀ acc : SessAcc, ∃ newP : List PageRow,
      (addPagesAndWidgets doc_id prs acc).pages = acc.pages ++ newP ∧
      (addPagesAndWidgets doc_id prs acc).widgets = acc.widgets ++
        (newP.zip prs).flatMap (fun x => x.2.links.map (mkLinkWidget x.1.id)) ∧
      newP.length = prs.length ∧
      newP.map pageShape =
        prs.map (fun pr => (doc_id, pr.page_num, pr.image_path, pr.width, pr.height)) := by
  induction prs with
  | nil => intro acc; exact ⟨[], by simp [addPagesAndWidgets], by simp [addPagesAndWidgets], rfl, rfl⟩
  | cons pr rest ih =>
    intro acc
    obtain ⟨newP, hp, hw, hlen, hshape⟩ :=
      ih ⟨acc.pages ++ [⟨acc.nextPageId, doc_id, pr.page_num, pr.image_path, pr.width, pr.height⟩],
        acc.widgets ++ pr.links.map (mkLinkWidget acc.nextPageId), acc.nextPageId + 1⟩
    refine ⟨⟨acc.nextPageId, doc_id, pr.page_num, pr.image_path, pr.width, pr.height⟩ :: newP,
      ?_, ?_, ?_, ?_⟩
    · show (addPagesAndWidgets doc_id rest
        ⟨acc.pages ++ [⟨acc.nextPageId, doc_id, pr.page_num, pr.image_path, pr.width, pr.height⟩],
          acc.widgets ++ pr.links.map (mkLinkWidget acc.nextPageId), acc.nextPageId + 1⟩).pages = _
      rw [hp]
      simp [List.append_assoc]
    · show (addPagesAndWidgets doc_id rest
        ⟨acc.pages ++ [⟨acc.nextPageId, doc_id, pr.page_num, pr.image_path, pr.width, pr.height⟩],
          acc.widgets ++ pr.links.map (mkLinkWidget acc.nextPageId), acc.nextPageId + 1⟩).widgets = _
      rw [hw, List.zip_cons_cons, List.flatMap_cons]
      simp [List.append_assoc]
    · simpa using hlen
    · rw [List.map_cons, List.map_cons, hshape]
      rfl

/-- helper: assigning commit-time ids does not change a widget's shape. -/
theorem assignIds_map_widgetShape (l : List WidgetRow) :
    ∀ c2, (assignIds c2 l).map widgetShape = l.map widgetShape := by
  induction l with
  | nil => intro c2; rfl
  | cons w ws ih =>
    intro c2
    rw [show assignIds c2 (w :: ws) = { w with id := c2 } :: assignIds (c2 + 1) ws from rfl]
    rw [List.map_cons, List.map_cons, ih (c2 + 1)]
    rfl

/-- helper: every widget after id assignment is one of the input widgets,
up to its id. -/
theorem assignIds_mem (l : List WidgetRow) :
    ∀ (c : Nat) (w : WidgetRow), w ∈ assignIds c l →
      ∃ w0 ∈ l, w = { w0 with id := w.id } := by
  induction l with
  | nil => intro c w h; exact absurd h (List.not_mem_nil w)
  | cons a as ih =>
    intro c w h
    rw [show assignIds c (a :: as) = { a with id := c } :: assignIds (c + 1) as from rfl] at h
    rcases List.mem_cons.mp h with h1 | h1
    · exact ⟨a, List.mem_cons_self a as, by rw [h1]⟩
    · obtain ⟨w0, hw0, hw⟩ := ih (c + 1) w h1
      exact ⟨w0, List.mem_cons_of_mem a hw0, hw⟩

/-- helper: convert_pdf_sync only raises conversion errors. -/
theorem convert_pdf_sync_err_shape (pdf : PdfFile) (doc_id : String) (fs : FSState)
    (e : PyErr) (fs1 : FSState) (h : convert_pdf_sync pdf doc_id fs = (.error e, fs1)) :
    ∃ m, e = .pdfConversionError m := by
  unfold convert_pdf_sync at h
  cases pdf with
  | bad m =>
    simp only [Prod.mk.injEq, Except.error.injEq] at h
    exact ⟨_, h.1.symm⟩
  | ok pages =>
    simp only [] at h
    cases hc : convertPages doc_id pages 0 (addDir fs (pagesDirOf doc_id)) with
    | mk r fs2 =>
      rw [hc] at h
      cases r with
      | error m =>
        simp only [Prod.mk.injEq, Except.error.injEq] at h
        exact ⟨_, h.1.symm⟩
      | ok prs => simp at h

/-- helper: a successful body run pins down the conversion result, the
commit, the response and the committed rows. -/
theorem process_pdf_body_ok (o : Oracle) (pdf : PdfFile) (filename : String)
    (custom : Option String) (doc_id tok : String) (now npid nwid : Nat)
    (db : DB) (fsin : FSState) (resp : UploadResponse) (db1 : DB) (fs1 : FSState)
    (h : process_pdf_body o pdf filename custom doc_id tok now npid nwid db fsin =
      (.ok resp, db1, fs1)) :
    ∃ result,
      convert_pdf_sync pdf doc_id (addDir fsin (pagesDirOf doc_id)) = (.ok result, fs1) ∧
      o.commitFails = none ∧
      resp = ⟨doc_id, computeTitle custom filename, result.page_count,
        "/pages/" ++ doc_id ++ "/page_1.webp", now, now⟩ ∧
      db1 = ⟨db.flipbooks ++ [⟨doc_id, computeTitle custom filename, pdfPathOf doc_id,
          dumps (Json.obj []), tok, now, now⟩],
        db.pages ++ (addPagesAndWidgets doc_id result.pages ⟨[], [], npid⟩).pages,
        db.widgets ++ assignIds nwid (addPagesAndWidgets doc_id result.pages
          ⟨[], [], npid⟩).widgets⟩ := by
  simp only [process_pdf_body] at h
  cases hc : convert_pdf_sync pdf doc_id (addDir fsin (pagesDirOf doc_id)) with
  | mk r fs3 =>
    rw [hc] at h
    cases r with
    | error e => simp at h
    | ok result =>
      cases hm : o.commitFails with
      | some m => rw [hm] at h; simp at h
      | none =>
        rw [hm] at h
        simp only [Prod.mk.injEq, Except.ok.injEq] at h
        obtain ⟨h1, h2, h3⟩ := h
        exact ⟨result, by rw [h3], rfl, h1.symm, h2.symm⟩

/-- helper: a failing body run leaves the database untouched, and its error
is a conversion error or a commit failure. -/
theorem process_pdf_body_err (o : Oracle) (pdf : PdfFile) (filename : String)
    (custom : Option String) (doc_id tok : String) (now npid nwid : Nat)
    (db : DB) (fsin : FSState) (e : PyErr) (db1 : DB) (fs1 : FSState)
    (h : process_pdf_body o pdf filename custom doc_id tok now npid nwid db fsin =
      (.error e, db1, fs1)) :
    db1 = db ∧
      ((∃ m, e = .pdfConversionError m) ∨
       (∃ m, e = .otherError m ∧ o.commitFails = some m)) := by
  simp only [process_pdf_body] at h
  cases hc : convert_pdf_sync pdf doc_id (addDir fsin (pagesDirOf doc_id)) with
  | mk r fs3 =>
    rw [hc] at h
    cases r with
    | error e0 =>
      simp only [Prod.mk.injEq, Except.error.injEq] at h
      obtain ⟨h1, h2, h3⟩ := h
      refine ⟨h2.symm, Or.inl ?_⟩
      obtain ⟨m, hm⟩ := convert_pdf_sync_err_shape pdf doc_id _ e0 fs3 hc
      exact ⟨m, by rw [← h1, hm]⟩
    | ok result =>
      cases hm : o.commitFails with
      | some m =>
        rw [hm] at h
        simp only [Prod.mk.injEq, Except.error.injEq] at h
        obtain ⟨h1, h2, h3⟩ := h
        exact ⟨h2.symm, Or.inr ⟨m, h1.symm, rfl⟩⟩
      | none => rw [hm] at h; simp at h

/-- helper: the body's final filesystem state is exactly the converter's. -/
theorem process_pdf_body_fs (o : Oracle) (pdf : PdfFile) (filename : String)
    (custom : Option String) (doc_id tok : String) (now npid nwid : Nat)
    (db : DB) (fsin : FSState) :
    (process_pdf_body o pdf filename custom doc_id tok now npid nwid db fsin).2.2 =
      (convert_pdf_sync pdf doc_id (addDir fsin (pagesDirOf doc_id))).2 := by
  simp only [process_pdf_body]
  cases hc : convert_pdf_sync pdf doc_id (addDir fsin (pagesDirOf doc_id)) with
  | mk r fs3 =>
    cases r with
    | error e => rfl
    | ok result => cases o.commitFails <;> rfl

/-- helper: the except handler always re-raises, on the database it was
given. -/
theorem process_pdf_handler_err (o : Oracle) (doc_id : String) (e : PyErr)
    (db1 : DB) (fs3 : FSState) :
    ∃ e2 fs5, process_pdf_handler o doc_id e db1 fs3 = (.error e2, db1, fs5) := by
  unfold process_pdf_handler
  split
  · exact ⟨_, _, rfl⟩
  · split
    · exact ⟨_, _, rfl⟩
    · split
      · exact ⟨_, _, rfl⟩
      · exact ⟨_, _, rfl⟩

/-- helper: a successful process_pdf run is a successful body run. -/
theorem process_pdf_ok_inv (o : Oracle) (pdf : PdfFile) (filename : String)
    (custom : Option String) (doc_id tok : String) (now npid nwid : Nat)
    (db : DB) (fs : FSState) (resp : UploadResponse) (db1 : DB) (fs1 : FSState)
    (h : process_pdf o pdf filename custom doc_id tok now npid nwid db fs =
      (.ok resp, db1, fs1)) :
    process_pdf_body o pdf filename custom doc_id tok now npid nwid db
      (addFile fs (pdfPathOf doc_id)) = (.ok resp, db1, fs1) := by
  simp only [process_pdf] at h
  split at h
  · next r dbb fsb heq =>
    simp only [Prod.mk.injEq, Except.ok.injEq] at h
    rw [heq, h.1, h.2.1, h.2.2]
  · next e dbb fsb heq =>
    exfalso
    obtain ⟨e2, fs5, hh⟩ := process_pdf_handler_err o doc_id e dbb fsb
    rw [hh] at h
    simp at h

/-- helper: a failing process_pdf run comes from a failing body run on the
same database. -/
theorem process_pdf_err_inv (o : Oracle) (pdf : PdfFile) (filename : String)
    (custom : Option String) (doc_id tok : String) (now npid nwid : Nat)
    (db : DB) (fs : FSState) (e : PyErr) (db1 : DB) (fs1 : FSState)
    (h : process_pdf o pdf filename custom doc_id tok now npid nwid db fs =
      (.error e, db1, fs1)) :
    ∃ eb fsb, process_pdf_body o pdf filename custom doc_id tok now npid nwid db
      (addFile fs (pdfPathOf doc_id)) = (.error eb, db1, fsb) := by
  simp only [process_pdf] at h
  split at h
  · next r dbb fsb heq => simp at h
  · next e0 dbb fsb heq =>
    obtain ⟨e2, fs5, hh⟩ := process_pdf_handler_err o doc_id e0 dbb fsb
    rw [hh] at h
    simp only [Prod.mk.injEq, Except.error.injEq] at h
    exact ⟨e0, fsb, by rw [heq, h.2.1]⟩

/-- C3: on a successful upload, exactly one Flipbook row, one Page row per
rendered page (carrying the conversion's page_num, image path and pixel
dimensions) and one link-type Widget row per extracted link (properties
url plus target _blank, geometry the extracted rectangle, z-index 0,
attached to its page's id) are appended to the store by the single final
commit, and nothing else changes; on any failure no row is committed. -/
theorem process_pdf_persists (o : Oracle) (pdf : PdfFile) (filename : String)
    (custom : Option String) (doc_id tok : String) (now npid nwid : Nat)
    (db : DB) (fs : FSState) :
    (∀ resp db1 fs1 result fs3,
      process_pdf o pdf filename custom doc_id tok now npid nwid db fs =
        (.ok resp, db1, fs1) →
      convert_pdf_sync pdf doc_id
        (addDir (addFile fs (pdfPathOf doc_id)) (pagesDirOf doc_id)) =
        (.ok result, fs3) →
      db1.flipbooks = db.flipbooks ++
        [⟨doc_id, computeTitle custom filename, pdfPathOf doc_id,
          dumps (Json.obj []), tok, now, now⟩] ∧
      db1.pages.take db.pages.length = db.pages ∧
      db1.widgets.take db.widgets.length = db.widgets ∧
      (db1.pages.drop db.pages.length).map pageShape =
        result.pages.map (fun pr =>
          (doc_id, pr.page_num, pr.image_path, pr.width, pr.height)) ∧
      (db1.widgets.drop db.widgets.length).map widgetShape =
        ((db1.pages.drop db.pages.length).zip result.pages).flatMap
          (fun x => x.2.links.map (linkWidgetShape x.1.id))) ∧
    (∀ e db1 fs1,
      process_pdf o pdf filename custom doc_id tok now npid nwid db fs =
        (.error e, db1, fs1) → db1 = db) := by
  constructor
  · intro resp db1 fs1 result fs3 h hconv
    have hb := process_pdf_ok_inv o pdf filename custom doc_id tok now npid nwid
      db fs resp db1 fs1 h
    obtain ⟨result0, hc0, hcm, hresp, hdb1⟩ := process_pdf_body_ok o pdf filename
      custom doc_id tok now npid nwid db _ resp db1 fs1 hb
    rw [hconv] at hc0
    simp only [Prod.mk.injEq, Except.ok.injEq] at hc0
    obtain ⟨hres, hfs⟩ := hc0
    subst hres
    obtain ⟨newP, hp, hw, hlen, hshape⟩ :=
      addPagesAndWidgets_spec doc_id result.pages ⟨[], [], npid⟩
    simp only [List.nil_append] at hp hw
    have hpg : db1.pages = db.pages ++ newP := by
      rw [hdb1]
      show db.pages ++
        (addPagesAndWidgets doc_id result.pages ⟨[], [], npid⟩).pages = _
      rw [hp]
    have hwg : db1.widgets = db.widgets ++ assignIds nwid
        ((newP.zip result.pages).flatMap
          (fun x => x.2.links.map (mkLinkWidget x.1.id))) := by
      rw [hdb1]
      show db.widgets ++ assignIds nwid
        (addPagesAndWidgets doc_id result.pages ⟨[], [], npid⟩).widgets = _
      rw [hw]
    refine ⟨by rw [hdb1], ?_, ?_, ?_, ?_⟩
    · rw [hpg]; exact List.take_left db.pages newP
    · rw [hwg]; exact List.take_left db.widgets _
    · rw [hpg, List.drop_left, hshape]
    · rw [hpg, hwg, List.drop_left, List.drop_left, assignIds_map_widgetShape,
        List.map_flatMap]
      have hfun : (fun x : PageRow × PageRenderResult =>
          List.map widgetShape (List.map (mkLinkWidget x.1.id) x.2.links)) =
          (fun x : PageRow × PageRenderResult =>
            x.2.links.map (linkWidgetShape x.1.id)) := by
        funext x
        rw [List.map_map]
        rfl
      rw [hfun]
  · intro e db1 fs1 h
    obtain ⟨eb, fsb, hbody⟩ := process_pdf_err_inv o pdf filename custom doc_id
      tok now npid nwid db fs e db1 fs1 h
    exact (process_pdf_body_err o pdf filename custom doc_id tok now npid nwid
      db _ eb db1 fsb hbody).1

/-- C3, witnessed on a successful empty-PDF upload and on a failing one. -/
theorem process_pdf_persists_witness :
    c3OkRun.2.1.flipbooks = dbEmpty.flipbooks ++
      [⟨"d", computeTitle (some "T") "a.pdf", pdfPathOf "d",
        dumps (Json.obj []), "t", 5, 5⟩] ∧
    c3ErrRun.2.1 = dbEmpty := by
  constructor
  · exact ((process_pdf_persists oracle0 (PdfFile.ok []) "a.pdf" (some "T") "d" "t"
      5 1 1 dbEmpty fsEmpty).1
      ⟨"d", "T", 0, "/pages/d/page_1.webp", 5, 5⟩
      ⟨[⟨"d", "T", "storage/uploads/d.pdf", some (Json.obj []), "t", 5, 5⟩], [], []⟩
      ⟨["storage/uploads/d.pdf"], ["storage/pages/d", "storage/pages/d"]⟩
      ⟨"d", 0, []⟩
      ⟨["storage/uploads/d.pdf"], ["storage/pages/d", "storage/pages/d"]⟩
      rfl rfl).1
  · exact (process_pdf_persists oracle0 (PdfFile.bad "boom") "a.pdf" (some "T") "d"
      "t" 5 1 1 dbEmpty fsEmpty).2
      (.pdfConversionError "Impossible d'ouvrir le PDF: boom") dbEmpty ⟨[], []⟩ rfl

/-- helper: after any body run, the files present on entry are still
present and the pages directory exists. -/
theorem process_pdf_body_keeps (o : Oracle) (pdf : PdfFile) (filename : String)
    (custom : Option String) (doc_id tok : String) (now npid nwid : Nat)
    (db : DB) (fsin : FSState) :
    (∀ f ∈ fsin.files,
      f ∈ (process_pdf_body o pdf filename custom doc_id tok now npid nwid db
        fsin).2.2.files) ∧
    pagesDirOf doc_id ∈ (process_pdf_body o pdf filename custom doc_id tok now
      npid nwid db fsin).2.2.dirs := by
  rw [process_pdf_body_fs]
  constructor
  · intro f hf
    obtain ⟨l, hl⟩ :=
      convert_pdf_sync_files_mono pdf doc_id (addDir fsin (pagesDirOf doc_id))
    rw [hl]
    exact List.mem_append_left l hf
  · rw [convert_pdf_sync_dirs]
    simp [addDir]

/-- helper: the except handler under an oracle whose two deletions succeed
removes the saved PDF and the pages directory with its contents, and
re-raises or wraps the original error. -/
theorem process_pdf_handler_clean (o : Oracle) (doc_id : String) (e : PyErr)
    (db1 : DB) (fs3 : FSState)
    (hmem : pdfPathOf doc_id ∈ fs3.files)
    (hrm : o.removeFails (pdfPathOf doc_id) = none)
    (hdmem : pagesDirOf doc_id ∈ fs3.dirs)
    (hrt : o.rmtreeFails (pagesDirOf doc_id) = none) :
    process_pdf_handler o doc_id e db1 fs3 =
      ((match e with
        | .pdfConversionError m => .error (.pdfConversionError m)
        | e1 => .error (.pdfConversionError ("Erreur inattendue: " ++ e1.msg))),
       db1,
       ⟨(fs3.files.filter (fun f => f ≠ pdfPathOf doc_id)).filter
          (fun f => !(isUnderDir (pagesDirOf doc_id) f)),
        fs3.dirs.filter (fun d => d ≠ pagesDirOf doc_id ∧
          !(isUnderDir (pagesDirOf doc_id) d))⟩) := by
  unfold process_pdf_handler delete_file_async delete_dir_async
  rw [if_pos hmem, hrm]
  simp only []
  rw [if_pos (show pagesDirOf doc_id ∈
    ({ fs3 with files := fs3.files.filter (fun f => f ≠ pdfPathOf doc_id) } :
      FSState).dirs from hdmem), hrt]
  simp only []
  cases e <;> rfl

/-- C4: when the body of process_pdf fails after the PDF bytes were saved
and the cleanup deletions themselves succeed, no row is committed (the
returned database is the input one), the saved PDF file and the whole
per-document pages directory are removed, and the surfaced error is the
original conversion error as is, or the original unexpected error wrapped
as a conversion error whose message embeds the original message. -/
theorem process_pdf_failure_cleanup (o : Oracle) (pdf : PdfFile) (filename : String)
    (custom : Option String) (doc_id tok : String) (now npid nwid : Nat)
    (db : DB) (fs : FSState) (eb : PyErr) (dbb : DB) (fsb : FSState)
    (hbody : process_pdf_body o pdf filename custom doc_id tok now npid nwid db
      (addFile fs (pdfPathOf doc_id)) = (.error eb, dbb, fsb))
    (hrm : o.removeFails (pdfPathOf doc_id) = none)
    (hrt : o.rmtreeFails (pagesDirOf doc_id) = none) :
    ∃ e fs1,
      process_pdf o pdf filename custom doc_id tok now npid nwid db fs =
        (.error e, db, fs1) ∧
      pdfPathOf doc_id ∉ fs1.files ∧
      pagesDirOf doc_id ∉ fs1.dirs ∧
      (∀ f ∈ fs1.files, isUnderDir (pagesDirOf doc_id) f = false) ∧
      ((∃ m, eb = .pdfConversionError m ∧ e = eb) ∨
       (∃ m, eb = .otherError m ∧
         e = .pdfConversionError ("Erreur inattendue: " ++ m))) := by
  obtain ⟨hdb, hshape⟩ := process_pdf_body_err o pdf filename custom doc_id tok
    now npid nwid db _ eb dbb fsb hbody
  have hkeep := process_pdf_body_keeps o pdf filename custom doc_id tok now npid
    nwid db (addFile fs (pdfPathOf doc_id))
  rw [hbody] at hkeep
  have hmem : pdfPathOf doc_id ∈ fsb.files :=
    hkeep.1 (pdfPathOf doc_id) (by simp [addFile])
  have hrun : process_pdf o pdf filename custom doc_id tok now npid nwid db fs =
      process_pdf_handler o doc_id eb dbb fsb := by
    simp only [process_pdf]
    rw [hbody]
  rw [process_pdf_handler_clean o doc_id eb dbb fsb hmem hrm hkeep.2 hrt,
    hdb] at hrun
  rcases hshape with ⟨m, hm⟩ | ⟨m, hm, hcf⟩
  · subst hm
    refine ⟨_, _, hrun, ?_, ?_, ?_, Or.inl ⟨m, rfl, rfl⟩⟩
    · intro hmem2
      have h1 := (List.mem_filter.mp ((List.mem_filter.mp hmem2).1)).2
      simp at h1
    · intro hmem2
      have h1 := (List.mem_filter.mp hmem2).2
      simp at h1
    · intro f hf
      have h1 := (List.mem_filter.mp hf).2
      simpa using h1
  · subst hm
    refine ⟨_, _, hrun, ?_, ?_, ?_, Or.inr ⟨m, rfl, rfl⟩⟩
    · intro hmem2
      have h1 := (List.mem_filter.mp ((List.mem_filter.mp hmem2).1)).2
      simp at h1
    · intro hmem2
      have h1 := (List.mem_filter.mp hmem2).2
      simp at h1
    · intro f hf
      have h1 := (List.mem_filter.mp hf).2
      simpa using h1

/-- C4, witnessed on a concrete PDF that fails to open. -/
theorem process_pdf_failure_cleanup_witness :
    ∃ e fs1,
      process_pdf oracle0 (PdfFile.bad "corrupt") "a.pdf" none "d" "t" 0 1 1
        dbEmpty fsEmpty = (.error e, dbEmpty, fs1) ∧
      pdfPathOf "d" ∉ fs1.files ∧
      pagesDirOf "d" ∉ fs1.dirs ∧
      (∀ f ∈ fs1.files, isUnderDir (pagesDirOf "d") f = false) ∧
      ((∃ m, PyErr.pdfConversionError "Impossible d'ouvrir le PDF: corrupt" =
          .pdfConversionError m ∧
          e = .pdfConversionError "Impossible d'ouvrir le PDF: corrupt") ∨
       (∃ m, PyErr.pdfConversionError "Impossible d'ouvrir le PDF: corrupt" =
          .otherError m ∧
          e = .pdfConversionError ("Erreur inattendue: " ++ m))) :=
  process_pdf_failure_cleanup oracle0 (PdfFile.bad "corrupt") "a.pdf" none "d" "t"
    0 1 1 dbEmpty fsEmpty
    (.pdfConversionError "Impossible d'ouvrir le PDF: corrupt") dbEmpty
    ⟨["storage/uploads/d.pdf"], ["storage/pages/d", "storage/pages/d"]⟩
    rfl rfl rfl

/-- C5: the claim as stated is false: a cleanup failure during
conversion-error handling is not caught or logged; it propagates and
replaces the original conversion error. Concretely, with os.remove of the
saved PDF raising a permission error while handling an open failure, the
caller receives the permission error, not the conversion error the body
raised. -/
theorem cleanup_failure_masks :
    (process_pdf c5Oracle (PdfFile.bad "boom") "a.pdf" none "d" "t" 0 1 1
      dbEmpty fsEmpty).1 = .error (.otherError "Permission denied") ∧
    (process_pdf_body c5Oracle (PdfFile.bad "boom") "a.pdf" none "d" "t" 0 1 1
      dbEmpty (addFile fsEmpty (pdfPathOf "d"))).1 =
      .error (.pdfConversionError "Impossible d'ouvrir le PDF: boom") ∧
    PyErr.otherError "Permission denied" ≠
      PyErr.pdfConversionError "Impossible d'ouvrir le PDF: boom" := by
  refine ⟨rfl, rfl, by decide⟩

/-- C5 (amended): cleanup is idempotent and asymmetric in failure: deleting
an absent file or directory is a successful no-op, but a cleanup failure
during conversion-error handling is not caught: os.remove raising while the
saved PDF is being deleted makes process_pdf surface that failure in place
of the original conversion error. -/
theorem cleanup_idempotent_unguarded (o : Oracle) (p d : String) (fs : FSState) :
    (p ∉ fs.files → delete_file_async o p fs = (.ok (), fs)) ∧
    (d ∉ fs.dirs → delete_dir_async o d fs = (.ok (), fs)) ∧
    (∀ (pdf : PdfFile) (filename : String) (custom : Option String)
      (doc_id tok : String) (now npid nwid : Nat) (db : DB) (fs0 : FSState)
      (eb : PyErr) (dbb : DB) (fsb : FSState) (m : String),
      process_pdf_body o pdf filename custom doc_id tok now npid nwid db
        (addFile fs0 (pdfPathOf doc_id)) = (.error eb, dbb, fsb) →
      o.removeFails (pdfPathOf doc_id) = some m →
      process_pdf o pdf filename custom doc_id tok now npid nwid db fs0 =
        (.error (.otherError m), db, fsb)) := by
  refine ⟨fun h => ?_, fun h => ?_, ?_⟩
  · unfold delete_file_async
    rw [if_neg h]
  · unfold delete_dir_async
    rw [if_neg h]
  · intro pdf filename custom doc_id tok now npid nwid db fs0 eb dbb fsb m hbody hrm
    have hdb := (process_pdf_body_err o pdf filename custom doc_id tok now npid
      nwid db _ eb dbb fsb hbody).1
    have hkeep := process_pdf_body_keeps o pdf filename custom doc_id tok now
      npid nwid db (addFile fs0 (pdfPathOf doc_id))
    rw [hbody] at hkeep
    have hmem : pdfPathOf doc_id ∈ fsb.files :=
      hkeep.1 (pdfPathOf doc_id) (by simp [addFile])
    have hrun : process_pdf o pdf filename custom doc_id tok now npid nwid db fs0 =
        process_pdf_handler o doc_id eb dbb fsb := by
      simp only [process_pdf]
      rw [hbody]
    rw [hrun]
    unfold process_pdf_handler delete_file_async
    rw [if_pos hmem, hrm, hdb]

/-- C5 (amended), witnessed: deleting from an empty filesystem succeeds as
a no-op, and the concrete masking run surfaces the permission error. -/
theorem cleanup_idempotent_unguarded_witness :
    delete_file_async c5Oracle "storage/uploads/x.pdf" fsEmpty = (.ok (), fsEmpty) ∧
    delete_dir_async c5Oracle "storage/pages/x" fsEmpty = (.ok (), fsEmpty) ∧
    process_pdf c5Oracle (PdfFile.bad "boom") "a.pdf" none "d" "t" 0 1 1
      dbEmpty fsEmpty =
      (.error (.otherError "Permission denied"), dbEmpty,
       ⟨["storage/uploads/d.pdf"], ["storage/pages/d", "storage/pages/d"]⟩) := by
  refine ⟨?_, ?_, ?_⟩
  · exact (cleanup_idempotent_unguarded c5Oracle "storage/uploads/x.pdf"
      "storage/pages/x" fsEmpty).1 (by simp [fsEmpty])
  · exact (cleanup_idempotent_unguarded c5Oracle "storage/uploads/x.pdf"
      "storage/pages/x" fsEmpty).2.1 (by simp [fsEmpty])
  · exact (cleanup_idempotent_unguarded c5Oracle "x" "y" fsEmpty).2.2
      (PdfFile.bad "boom") "a.pdf" none "d" "t" 0 1 1 dbEmpty fsEmpty
      (.pdfConversionError "Impossible d'ouvrir le PDF: boom") dbEmpty
      ⟨["storage/uploads/d.pdf"], ["storage/pages/d", "storage/pages/d"]⟩
      "Permission denied" rfl rfl

/-- C9 (amended): the stored title of a successful upload is the non-empty
user-supplied title when one is given; otherwise (no title, or an empty
one) it is the filename with every occurrence of the exact substring ".pdf"
removed, underscores replaced by spaces, and Python title-casing applied. -/
theorem process_pdf_title (o : Oracle) (pdf : PdfFile) (filename : String)
    (custom : Option String) (doc_id tok : String) (now npid nwid : Nat)
    (db : DB) (fs : FSState) (resp : UploadResponse) (db1 : DB) (fs1 : FSState)
    (h : process_pdf o pdf filename custom doc_id tok now npid nwid db fs =
      (.ok resp, db1, fs1)) :
    ∃ fbRow : FlipbookRow, db1.flipbooks = db.flipbooks ++ [fbRow] ∧
      fbRow.title = computeTitle custom filename ∧
      resp.title = computeTitle custom filename ∧
      (∀ t, custom = some t → t ≠ "" → fbRow.title = t) ∧
      (custom = none → fbRow.title =
        pyTitle (pyReplace (pyReplace filename ".pdf" "") "_" " ")) ∧
      (custom = some "" → fbRow.title =
        pyTitle (pyReplace (pyReplace filename ".pdf" "") "_" " ")) := by
  obtain ⟨result, hc, hcm, hresp, hdb1⟩ := process_pdf_body_ok o pdf filename
    custom doc_id tok now npid nwid db _ resp db1 fs1
    (process_pdf_ok_inv o pdf filename custom doc_id tok now npid nwid db fs
      resp db1 fs1 h)
  refine ⟨⟨doc_id, computeTitle custom filename, pdfPathOf doc_id,
    dumps (Json.obj []), tok, now, now⟩, by rw [hdb1], rfl, by rw [hresp], ?_, ?_, ?_⟩
  · intro t ht hne
    rw [ht]
    simp [computeTitle, hne]
  · intro hc2
    rw [hc2]
    rfl
  · intro hc2
    rw [hc2]
    simp [computeTitle]

/-- C9 (amended), witnessed on the upload of my_report.pdf without a title,
whose stored title is "My Report". -/
theorem process_pdf_title_witness :
    ∃ fbRow : FlipbookRow, c9Run.2.1.flipbooks = dbEmpty.flipbooks ++ [fbRow] ∧
      fbRow.title = computeTitle none "my_report.pdf" ∧
      (⟨"d", "My Report", 0, "/pages/d/page_1.webp", 7, 7⟩ :
        UploadResponse).title = computeTitle none "my_report.pdf" ∧
      (∀ t, (none : Option String) = some t → t ≠ "" → fbRow.title = t) ∧
      ((none : Option String) = none → fbRow.title =
        pyTitle (pyReplace (pyReplace "my_report.pdf" ".pdf" "") "_" " ")) ∧
      ((none : Option String) = some "" → fbRow.title =
        pyTitle (pyReplace (pyReplace "my_report.pdf" ".pdf" "") "_" " ")) :=
  process_pdf_title oracle0 (PdfFile.ok []) "my_report.pdf" none "d" "t" 7 1 1
    dbEmpty fsEmpty ⟨"d", "My Report", 0, "/pages/d/page_1.webp", 7, 7⟩
    ⟨[⟨"d", "My Report", "storage/uploads/d.pdf", some (Json.obj []), "t", 7, 7⟩],
      [], []⟩
    ⟨["storage/uploads/d.pdf"], ["storage/pages/d", "storage/pages/d"]⟩ rfl

/-- C9: the claim as stated is false: the code removes occurrences of the
lowercase text ".pdf" rather than stripping the extension, so the valid
upload name "REPORT.PDF" keeps its extension in the derived title:
the code stores "Report.Pdf" where the spec's derivation gives "Report". -/
theorem compute_title_counterexample :
    computeTitle none "REPORT.PDF" = "Report.Pdf" ∧
    specComputeTitle none "REPORT.PDF" = "Report" ∧
    computeTitle none "REPORT.PDF" ≠ specComputeTitle none "REPORT.PDF" := by
  refine ⟨by decide, by decide, by decide⟩

/-- helper: the truthy field updates of the save path never change the row
id. -/
theorem applyTitleStyle_id (fb : FlipbookRow) (t? : Option String) (s? : Option Json) :
    (applyStyle (applyTitle fb t?) s?).id = fb.id := by
  unfold applyTitle applyStyle
  cases t? <;> cases s? <;> simp only [] <;>
    first
      | rfl
      | (split <;> rfl)
      | (split <;> split <;> rfl)

/-- helper: find? after replaceFirst returns the replacement when the
replacement satisfies the predicate. -/
theorem find?_replaceFirst (l : List FlipbookRow) (p : FlipbookRow → Bool)
    (x fb : FlipbookRow) (h : l.find? p = some fb) (hx : p x = true) :
    (replaceFirst l p x).find? p = some x := by
  induction l with
  | nil => simp at h
  | cons a rest ih =>
    unfold replaceFirst
    by_cases hpa : p a = true
    · rw [if_pos hpa]
      simp [List.find?_cons, hx]
    · rw [Bool.not_eq_true] at hpa
      rw [if_neg (by simp [hpa])]
      simp only [List.find?_cons, hpa] at h ⊢
      exact ih h

/-- helper: an entry with a missing or falsy page_num, or one matching no
loaded page, contributes nothing to the save loop. -/
theorem collectSave_cons_skip (loaded : List PageRow) (pn : Option Int)
    (ews : Option (List SaveWidgetData)) (rest : List PageEntry)
    (hskip : pn = none ∨
      ∃ n, pn = some n ∧ (n = 0 ∨ lookupPageByNum loaded n = none)) :
    collectSave loaded (⟨pn, ews⟩ :: rest) = collectSave loaded rest := by
  rcases hskip with h | ⟨n, hpn, hcase⟩
  · subst h
    rfl
  · subst hpn
    show (if n = 0 then collectSave loaded rest
      else
        match lookupPageByNum loaded n with
        | none => collectSave loaded rest
        | some page =>
          (page.id :: (collectSave loaded rest).1,
           (ews.getD []).map (mkSaveWidget page.id) ++
             (collectSave loaded rest).2)) = collectSave loaded rest
    rcases hcase with h0 | hnone
    · rw [if_pos h0]
    · by_cases h0 : n = 0
      · rw [if_pos h0]
      · rw [if_neg h0, hnone]

/-- helper: an entry naming an existing page deletes that page's widgets
and contributes the entry's widgets. -/
theorem collectSave_cons_found (loaded : List PageRow) (n : Int)
    (ews : Option (List SaveWidgetData)) (rest : List PageEntry) (page : PageRow)
    (hn : ¬(n = 0)) (hl : lookupPageByNum loaded n = some page) :
    collectSave loaded (⟨some n, ews⟩ :: rest) =
      (page.id :: (collectSave loaded rest).1,
       (ews.getD []).map (mkSaveWidget page.id) ++ (collectSave loaded rest).2) := by
  show (if n = 0 then collectSave loaded rest
    else
      match lookupPageByNum loaded n with
      | none => collectSave loaded rest
      | some page =>
        (page.id :: (collectSave loaded rest).1,
         (ews.getD []).map (mkSaveWidget page.id) ++
           (collectSave loaded rest).2)) = _
  rw [if_neg hn, hl]

/-- helper: every replacement widget the save loop creates belongs to one
of the pages the loop marked for deletion. -/
theorem collectSave_news_page_id (loaded : List PageRow) (es : List PageEntry) :
    ∀ w ∈ (collectSave loaded es).2, w.page_id ∈ (collectSave loaded es).1 := by
  induction es with
  | nil => intro w hw; exact absurd hw (List.not_mem_nil w)
  | cons e rest ih =>
    intro w hw
    obtain ⟨pn, ews⟩ := e
    cases pn with
    | none =>
      rw [collectSave_cons_skip loaded none ews rest (Or.inl rfl)] at hw ⊢
      exact ih w hw
    | some n =>
      by_cases hn : n = 0
      · rw [collectSave_cons_skip loaded (some n) ews rest
          (Or.inr ⟨n, rfl, Or.inl hn⟩)] at hw ⊢
        exact ih w hw
      · cases hl : lookupPageByNum loaded n with
        | none =>
          rw [collectSave_cons_skip loaded (some n) ews rest
            (Or.inr ⟨n, rfl, Or.inr hl⟩)] at hw ⊢
          exact ih w hw
        | some page =>
          rw [collectSave_cons_found loaded n ews rest page hn hl] at hw ⊢
          rcases List.mem_append.mp hw with h1 | h1
          · obtain ⟨wd, hwd, hweq⟩ := List.mem_map.mp h1
            rw [← hweq]
            exact List.mem_cons_self _ _
          · exact List.mem_cons_of_mem _ (ih w h1)

/-- helper: filtering by page id commutes with commit-time id assignment,
up to widget shape. -/
theorem assignIds_filter_shape (qid : Nat) (l : List WidgetRow) :
    ∀ c, ((assignIds c l).filter (fun w => w.page_id == qid)).map widgetShape =
      (l.filter (fun w => w.page_id == qid)).map widgetShape := by
  induction l with
  | nil => intro c; rfl
  | cons w ws ih =>
    intro c
    rw [show assignIds c (w :: ws) = { w with id := c } :: assignIds (c + 1) ws
      from rfl, List.filter_cons, List.filter_cons]
    have h2 : ((({ w with id := c } : WidgetRow)).page_id == qid) =
      (w.page_id == qid) := rfl
    rw [h2]
    by_cases h : (w.page_id == qid) = true
    · rw [if_pos h, if_pos h, List.map_cons, List.map_cons, ih (c + 1)]
      rfl
    · rw [if_neg h, if_neg h]
      exact ih (c + 1)

/-- helper: when every input widget lies on the filtered page, the filter
keeps the whole assigned list. -/
theorem assignIds_filter_all (qid : Nat) (l : List WidgetRow)
    (hall : ∀ w ∈ l, w.page_id = qid) :
    ∀ c, (assignIds c l).filter (fun w => w.page_id == qid) = assignIds c l := by
  intro c
  rw [List.filter_eq_self]
  intro w hw
  obtain ⟨w0, hw0, hweq⟩ := assignIds_mem l c w hw
  rw [hweq]
  exact beq_iff_eq.mpr (hall w0 hw0)

/-- helper: the pages_by_num fold returns its accumulator when nothing in
the list matches. -/
theorem lookupFold_none (n : Int) (l : List PageRow)
    (hnone : ∀ q ∈ l, ((q.page_num : Int) = n) → False) :
    ∀ acc : Option PageRow,
      l.foldl (fun acc p => if (p.page_num : Int) = n then some p else acc) acc =
        acc := by
  induction l with
  | nil => intro acc; rfl
  | cons a rest ih =>
    intro acc
    rw [List.foldl_cons, if_neg (hnone a (List.mem_cons_self a rest))]
    exact ih (fun q hq => hnone q (List.mem_cons_of_mem a hq)) acc

/-- helper: under page-number uniqueness, the pages_by_num dict maps p's
number to p. -/
theorem lookupPageByNum_unique (l : List PageRow) (p : PageRow) (n : Int)
    (hn : (p.page_num : Int) = n) :
    ∀ acc : Option PageRow, p ∈ l → (∀ q ∈ l, (q.page_num : Int) = n → q = p) →
      l.foldl (fun acc p => if (p.page_num : Int) = n then some p else acc) acc =
        some p := by
  induction l with
  | nil => intro acc hp; exact absurd hp (List.not_mem_nil p)
  | cons a rest ih =>
    intro acc hp hu
    rw [List.foldl_cons]
    by_cases hpa : p = a
    · subst hpa
      rw [if_pos hn]
      by_cases hpr : p ∈ rest
      · exact ih (some p) hpr (fun q hq hqn => hu q (List.mem_cons_of_mem p hq) hqn)
      · exact lookupFold_none n rest
          (fun q hq hqn => hpr ((hu q (List.mem_cons_of_mem p hq) hqn) ▸ hq))
          (some p)
    · have hna : ¬((a.page_num : Int) = n) :=
        fun hh => hpa ((hu a (List.mem_cons_self a rest) hh).symm)
      rw [if_neg hna]
      rcases List.mem_cons.mp hp with h1 | h1
      · exact absurd h1 hpa
      · exact ih acc h1 (fun q hq hqn => hu q (List.mem_cons_of_mem a hq) hqn)

/-- helper: the save route's full result when the flipbook is found. -/
theorem save_editor_data_eq (db : DB) (doc_id : String) (data : SaveData)
    (now nwid : Nat) (fb : FlipbookRow)
    (hfb : db.flipbooks.find? (fun f => f.id == doc_id) = some fb) :
    save_editor_data db doc_id data now nwid =
      (.ok ⟨"saved", doc_id,
        ({ applyStyle (applyTitle fb data.title) data.style with
          updated_at := now } : FlipbookRow).title, now⟩,
       ⟨replaceFirst db.flipbooks (fun f => f.id == doc_id)
          { applyStyle (applyTitle fb data.title) data.style with updated_at := now },
        db.pages,
        db.widgets.filter (fun w =>
          !((collectedOf db doc_id data).1.contains w.page_id)) ++
          assignIds nwid (collectedOf db doc_id data).2⟩) := by
  simp only [save_editor_data]
  rw [hfb]

/-- helper: the editor read's full result when the flipbook is found. -/
theorem get_editor_data_eq (db : DB) (doc_id : String) (fb : FlipbookRow)
    (hfb : db.flipbooks.find? (fun f => f.id == doc_id) = some fb) :
    get_editor_data db doc_id = .ok
      ⟨fb.id, fb.title, (db.pages.filter (fun p => p.flipbook_id == doc_id)).length,
       (if (Flipbook.style fb).truthy then Flipbook.style fb else Json.obj []),
       (List.mergeSort (db.pages.filter (fun p => p.flipbook_id == doc_id))
         (fun a b => decide (a.page_num ≤ b.page_num))).map (fun page =>
         ⟨page.id, page.page_num, "/pages/" ++ page.image_path, page.width,
          page.height,
          (List.mergeSort (db.widgets.filter (fun w => w.page_id == page.id))
            (fun a b => decide (a.z_index ≤ b.z_index))).map (fun w =>
            ⟨w.id, w.type, Widget.props w, Widget.geometry w, w.z_index⟩)⟩)⟩ := by
  simp only [get_editor_data]
  rw [hfb]

/-- C6: for every full editor save, only the widgets of the pages the
request names (and that exist in the flipbook) are deleted and replaced by
the request's widgets: the widget rows of every other page id are left
exactly as they were, the widgets of a named page end up being exactly the
request's collected widgets for that page modulo server-assigned ids, and
the stored flipbook's updated_at timestamp is bumped to the save time. -/
theorem save_editor_scoped (db : DB) (doc_id : String) (data : SaveData)
    (now nwid : Nat) (fb : FlipbookRow)
    (hfb : db.flipbooks.find? (fun f => f.id == doc_id) = some fb) :
    ∃ resp db1, save_editor_data db doc_id data now nwid = (.ok resp, db1) ∧
      (∀ qid : Nat, qid ∉ (collectedOf db doc_id data).1 →
        db1.widgets.filter (fun w => w.page_id == qid) =
          db.widgets.filter (fun w => w.page_id == qid)) ∧
      (∀ qid : Nat, qid ∈ (collectedOf db doc_id data).1 →
        (db1.widgets.filter (fun w => w.page_id == qid)).map widgetShape =
          ((collectedOf db doc_id data).2.filter
            (fun w => w.page_id == qid)).map widgetShape) ∧
      db1.pages = db.pages ∧
      (∃ fb1, db1.flipbooks.find? (fun f => f.id == doc_id) = some fb1 ∧
        fb1.updated_at = now) ∧
      resp.updated_at = now := by
  have hnews := collectSave_news_page_id
    (db.pages.filter (fun p => p.flipbook_id == doc_id))
  refine ⟨_, _, save_editor_data_eq db doc_id data now nwid fb hfb,
    ?_, ?_, rfl, ?_, rfl⟩
  · intro qid hqid
    show (db.widgets.filter (fun w => !((collectedOf db doc_id data).1.contains
        w.page_id)) ++ assignIds nwid (collectedOf db doc_id data).2).filter
        (fun w => w.page_id == qid) = _
    rw [List.filter_append]
    have h2 : (assignIds nwid (collectedOf db doc_id data).2).filter
        (fun w => w.page_id == qid) = [] := by
      rw [List.filter_eq_nil_iff]
      intro w hw hgw
      obtain ⟨w0, hw0, hweq⟩ := assignIds_mem _ _ w hw
      have hpid : w.page_id = qid := beq_iff_eq.mp hgw
      have hmem : w.page_id ∈ (collectedOf db doc_id data).1 := by
        rw [hweq]
        show w0.page_id ∈ _
        cases hdp : data.pages with
        | none =>
          rw [collectedOf, hdp] at hw0
          exact absurd hw0 (List.not_mem_nil w0)
        | some entries =>
          rw [collectedOf, hdp] at hw0 ⊢
          exact hnews entries w0 hw0
      rw [hpid] at hmem
      exact hqid hmem
    rw [h2, List.append_nil, List.filter_filter]
    refine List.filter_congr ?_
    intro w _
    by_cases hg : (w.page_id == qid) = true
    · have : ((collectedOf db doc_id data).1.contains w.page_id) = false := by
        rw [beq_iff_eq.mp hg]
        cases hc : ((collectedOf db doc_id data).1.contains qid) with
        | false => rfl
        | true => exact absurd (List.mem_of_elem_eq_true hc) hqid
      rw [hg, this]
      rfl
    · rw [Bool.not_eq_true] at hg
      rw [hg]
      rfl
  · intro qid hqid
    show ((db.widgets.filter (fun w => !((collectedOf db doc_id data).1.contains
        w.page_id)) ++ assignIds nwid (collectedOf db doc_id data).2).filter
        (fun w => w.page_id == qid)).map widgetShape = _
    rw [List.filter_append, List.map_append]
    have h1 : (db.widgets.filter (fun w =>
        !((collectedOf db doc_id data).1.contains w.page_id))).filter
        (fun w => w.page_id == qid) = [] := by
      rw [List.filter_eq_nil_iff]
      intro w hw hgw
      have hf := List.of_mem_filter hw
      rw [beq_iff_eq.mp hgw] at hf
      have hc : ((collectedOf db doc_id data).1.contains qid) = true :=
        List.elem_eq_true_of_mem hqid
      rw [hc] at hf
      simp at hf
    rw [h1, List.map_nil, List.nil_append, assignIds_filter_shape]
  · refine ⟨{ applyStyle (applyTitle fb data.title) data.style with
      updated_at := now }, ?_, rfl⟩
    refine find?_replaceFirst db.flipbooks _ _ fb hfb ?_
    show (({ applyStyle (applyTitle fb data.title) data.style with
      updated_at := now } : FlipbookRow).id == doc_id) = true
    have hid : ({ applyStyle (applyTitle fb data.title) data.style with
        updated_at := now } : FlipbookRow).id = fb.id := applyTitleStyle_id fb _ _
    rw [hid]
    have hpa := List.find?_some hfb
    exact hpa

/-- C6, witnessed: saving one link widget onto page 1 of the concrete
flipbook leaves page 2's widgets untouched and all pages in place. -/
theorem save_editor_scoped_witness :
    ∃ resp db1,
      save_editor_data c6Db "d" ⟨none, none, some [c6Entry]⟩ 9 10 =
        (.ok resp, db1) ∧
      db1.widgets.filter (fun w => w.page_id == 2) =
        c6Db.widgets.filter (fun w => w.page_id == 2) ∧
      db1.pages = c6Db.pages ∧
      resp.updated_at = 9 := by
  obtain ⟨resp, db1, hs, hframe, hrep, hpages, hfb1, hts⟩ :=
    save_editor_scoped c6Db "d" ⟨none, none, some [c6Entry]⟩ 9 10 c6Fb rfl
  exact ⟨resp, db1, hs, hframe 2 (by decide), hpages, hts⟩

/-- helper: commit-time id assignment does not change a widget's decoded
view either. -/
theorem assignIds_map_view (l : List WidgetRow) :
    ∀ c, (assignIds c l).map
        (fun w => (w.type, Widget.props w, Widget.geometry w, w.z_index)) =
      l.map (fun w => (w.type, Widget.props w, Widget.geometry w, w.z_index)) := by
  induction l with
  | nil => intro c; rfl
  | cons w ws ih =>
    intro c
    rw [show assignIds c (w :: ws) = { w with id := c } :: assignIds (c + 1) ws
      from rfl, List.map_cons, List.map_cons, ih (c + 1)]
    rfl

/-- C7: saving a list of widgets for an existing page of a flipbook via the
editor save and then reading that page back via the editor read yields the
same widgets - same type, decoded properties map, decoded geometry map and
z-index - as a multiset (the read returns them sorted by z-index),
differing only in server-assigned ids. -/
theorem editor_save_read_roundtrip (db : DB) (doc_id : String) (now nwid : Nat)
    (fb : FlipbookRow) (p : PageRow) (ws : List SaveWidgetData)
    (hfb : db.flipbooks.find? (fun f => f.id == doc_id) = some fb)
    (hp : p ∈ db.pages) (hpf : p.flipbook_id = doc_id) (hpos : p.page_num ≠ 0)
    (huniq : ∀ q ∈ db.pages, q.flipbook_id = doc_id →
      q.page_num = p.page_num → q = p) :
    ∃ resp db1 ed,
      save_editor_data db doc_id
        ⟨none, none, some [⟨some (p.page_num : Int), some ws⟩]⟩ now nwid =
        (.ok resp, db1) ∧
      get_editor_data db1 doc_id = .ok ed ∧
      (∃ entry ∈ ed.pages, entry.page_num = p.page_num ∧
        List.Perm (entry.widgets.map editorWidgetView) (ws.map requestWidgetView)) ∧
      (∀ e1 ∈ ed.pages, ∀ e2 ∈ ed.pages,
        e1.page_num = p.page_num → e2.page_num = p.page_num → e1 = e2) := by
  have hploaded : p ∈ db.pages.filter (fun q => q.flipbook_id == doc_id) :=
    List.mem_filter.mpr ⟨hp, beq_iff_eq.mpr hpf⟩
  have huniqL : ∀ q ∈ db.pages.filter (fun q => q.flipbook_id == doc_id),
      (q.page_num : Int) = (p.page_num : Int) → q = p := by
    intro q hq hqn
    have hq2 := List.mem_filter.mp hq
    exact huniq q hq2.1 (beq_iff_eq.mp hq2.2) (Nat.cast_inj.mp hqn)
  have hlook : lookupPageByNum (db.pages.filter (fun q => q.flipbook_id == doc_id))
      (p.page_num : Int) = some p :=
    lookupPageByNum_unique _ p (p.page_num : Int) rfl none hploaded huniqL
  have hnz : ¬((p.page_num : Int) = 0) := fun hh => hpos (Int.natCast_eq_zero.mp hh)
  have hcol : collectedOf db doc_id
      ⟨none, none, some [⟨some (p.page_num : Int), some ws⟩]⟩ =
      ([p.id], ws.map (mkSaveWidget p.id)) := by
    show collectSave (db.pages.filter (fun q => q.flipbook_id == doc_id))
      [⟨some (p.page_num : Int), some ws⟩] = _
    rw [collectSave_cons_found _ _ (some ws) [] p hnz hlook]
    simp [collectSave]
  have hsave := save_editor_data_eq db doc_id
    ⟨none, none, some [⟨some (p.page_num : Int), some ws⟩]⟩ now nwid fb hfb
  rw [hcol] at hsave
  have hid3 : (({ applyStyle (applyTitle fb none) none with
      updated_at := now } : FlipbookRow).id == doc_id) = true := by
    have hid : ({ applyStyle (applyTitle fb none) none with
        updated_at := now } : FlipbookRow).id = fb.id := applyTitleStyle_id fb none none
    rw [hid]
    have hpa := List.find?_some hfb
    exact hpa
  have hfind3 := find?_replaceFirst db.flipbooks (fun f => f.id == doc_id)
    { applyStyle (applyTitle fb none) none with updated_at := now } fb hfb hid3
  refine ⟨_, _, _, hsave, get_editor_data_eq _ doc_id
    { applyStyle (applyTitle fb none) none with updated_at := now } hfind3, ?_, ?_⟩
  · -- the round-trip entry for page p
    have hwid : (⟨replaceFirst db.flipbooks (fun f => f.id == doc_id)
          { applyStyle (applyTitle fb none) none with updated_at := now },
        db.pages,
        db.widgets.filter (fun w => !(([p.id] : List Nat).contains w.page_id)) ++
          assignIds nwid (ws.map (mkSaveWidget p.id))⟩ : DB).widgets.filter
          (fun w => w.page_id == p.id) =
        assignIds nwid (ws.map (mkSaveWidget p.id)) := by
      show (db.widgets.filter (fun w => !(([p.id] : List Nat).contains w.page_id)) ++
        assignIds nwid (ws.map (mkSaveWidget p.id))).filter
          (fun w => w.page_id == p.id) = _
      rw [List.filter_append]
      have h1 : (db.widgets.filter
          (fun w => !(([p.id] : List Nat).contains w.page_id))).filter
          (fun w => w.page_id == p.id) = [] := by
        rw [List.filter_eq_nil_iff]
        intro w hw hgw
        have hf := List.of_mem_filter hw
        rw [beq_iff_eq.mp hgw] at hf
        simp at hf
      rw [h1, List.nil_append]
      exact assignIds_filter_all p.id _
        (by
          intro w hw
          obtain ⟨wd, hwd, hweq⟩ := List.mem_map.mp hw
          rw [← hweq]
          rfl) nwid
    have hmemSorted : p ∈ List.mergeSort
        (db.pages.filter (fun q => q.flipbook_id == doc_id))
        (fun a b => decide (a.page_num ≤ b.page_num)) :=
      ((List.mergeSort_perm (db.pages.filter (fun q => q.flipbook_id == doc_id))
        (fun a b => decide (a.page_num ≤ b.page_num))).mem_iff).mpr hploaded
    refine ⟨_, List.mem_map_of_mem _ hmemSorted, rfl, ?_⟩
    show (((List.mergeSort ((⟨replaceFirst db.flipbooks (fun f => f.id == doc_id)
        { applyStyle (applyTitle fb none) none with updated_at := now },
      db.pages,
      db.widgets.filter (fun w => !(([p.id] : List Nat).contains w.page_id)) ++
        assignIds nwid (ws.map (mkSaveWidget p.id))⟩ : DB).widgets.filter
          (fun w => w.page_id == p.id))
        (fun a b => decide (a.z_index ≤ b.z_index))).map (fun w =>
          (⟨w.id, w.type, Widget.props w, Widget.geometry w, w.z_index⟩ :
            EditorWidget))).map editorWidgetView).Perm
      (ws.map requestWidgetView)
    rw [hwid, List.map_map]
    have hfinal : (assignIds nwid (ws.map (mkSaveWidget p.id))).map
        (editorWidgetView ∘ fun w =>
          (⟨w.id, w.type, Widget.props w, Widget.geometry w, w.z_index⟩ :
            EditorWidget)) = ws.map requestWidgetView := by
      show (assignIds nwid (ws.map (mkSaveWidget p.id))).map
        (fun w => (w.type, Widget.props w, Widget.geometry w, w.z_index)) = _
      rw [assignIds_map_view, List.map_map]
      rfl
    rw [← hfinal]
    exact (List.mergeSort_perm _ _).map _
  · intro e1 he1 e2 he2 h1 h2
    obtain ⟨q1, hq1, hq1e⟩ := List.mem_map.mp he1
    obtain ⟨q2, hq2, hq2e⟩ := List.mem_map.mp he2
    have hq1L := (List.mergeSort_perm _ _).mem_iff.mp hq1
    have hq2L := (List.mergeSort_perm _ _).mem_iff.mp hq2
    have hq1p : q1 = p := by
      refine huniqL q1 hq1L ?_
      rw [← hq1e] at h1
      exact congrArg Nat.cast h1
    have hq2p : q2 = p := by
      refine huniqL q2 hq2L ?_
      rw [← hq2e] at h2
      exact congrArg Nat.cast h2
    rw [← hq1e, ← hq2e, hq1p, hq2p]

/-- C7, witnessed: replacing page 1's widgets of the concrete flipbook with
a link and a video widget and reading page 1 back yields exactly those two
widgets, modulo ids. -/
theorem editor_save_read_roundtrip_witness :
    ∃ resp db1 ed,
      save_editor_data c6Db "d"
        ⟨none, none, some [⟨some (c6P1.page_num : Int), some c7Ws⟩]⟩ 9 10 =
        (.ok resp, db1) ∧
      get_editor_data db1 "d" = .ok ed ∧
      ∃ entry ∈ ed.pages, entry.page_num = c6P1.page_num ∧
        List.Perm (entry.widgets.map editorWidgetView) (c7Ws.map requestWidgetView) := by
  obtain ⟨resp, db1, ed, hs, hg, hentry, hun⟩ :=
    editor_save_read_roundtrip c6Db "d" 9 10 c6Fb c6P1 c7Ws rfl
      (by simp [c6Db])
      rfl
      (by decide)
      (by
        intro q hq hqf hqn
        have hq2 : q = c6P1 ∨ q = c6P2 ∨ q ∈ ([] : List PageRow) := by
          simpa [c6Db] using hq
        rcases hq2 with h | h | h
        · exact h
        · rw [h] at hqn
          exact absurd hqn (by decide)
        · exact absurd h (List.not_mem_nil q))
  exact ⟨resp, db1, ed, hs, hg, hentry⟩

/-- helper: the save loop's outcome on a cons depends on the tail only
through its collected result. -/
theorem collectSave_cons_congr (loaded : List PageRow) (a : PageEntry)
    (r1 r2 : List PageEntry)
    (h : collectSave loaded r1 = collectSave loaded r2) :
    collectSave loaded (a :: r1) = collectSave loaded (a :: r2) := by
  obtain ⟨pn, ews⟩ := a
  cases pn with
  | none =>
    show collectSave loaded r1 = collectSave loaded r2
    exact h
  | some n =>
    show (if n = 0 then collectSave loaded r1
      else
        match lookupPageByNum loaded n with
        | none => collectSave loaded r1
        | some page =>
          (page.id :: (collectSave loaded r1).1,
           (ews.getD []).map (mkSaveWidget page.id) ++ (collectSave loaded r1).2)) =
      (if n = 0 then collectSave loaded r2
      else
        match lookupPageByNum loaded n with
        | none => collectSave loaded r2
        | some page =>
          (page.id :: (collectSave loaded r2).1,
           (ews.getD []).map (mkSaveWidget page.id) ++ (collectSave loaded r2).2))
    rw [h]

/-- helper: a skipped entry contributes nothing, wherever it sits in the
request. -/
theorem collectSave_append_skip (loaded : List PageRow) (l2 : List PageEntry)
    (e : PageEntry)
    (hskip : e.page_num = none ∨ ∃ n, e.page_num = some n ∧
      (n = 0 ∨ lookupPageByNum loaded n = none)) :
    ∀ l1 : List PageEntry,
      collectSave loaded (l1 ++ e :: l2) = collectSave loaded (l1 ++ l2) := by
  intro l1
  induction l1 with
  | nil =>
    obtain ⟨pn, ews⟩ := e
    exact collectSave_cons_skip loaded pn ews l2 hskip
  | cons a r ih => exact collectSave_cons_congr loaded a _ _ ih

/-- C10: a pages entry whose page_num is missing, falsy, or matches no
existing page of the flipbook is silently skipped: the save behaves exactly
as if the entry were absent (no error, no widgets created or deleted for
that entry), and the rest of the save still succeeds and takes effect when
the flipbook exists. -/
theorem save_editor_skips (db : DB) (doc_id : String) (data : SaveData)
    (now nwid : Nat) (l1 l2 : List PageEntry) (e : PageEntry)
    (hskip : e.page_num = none ∨ ∃ n, e.page_num = some n ∧ (n = 0 ∨
      lookupPageByNum (db.pages.filter (fun p => p.flipbook_id == doc_id)) n =
        none)) :
    save_editor_data db doc_id { data with pages := some (l1 ++ e :: l2) }
        now nwid =
      save_editor_data db doc_id { data with pages := some (l1 ++ l2) }
        now nwid ∧
    (∀ fb, db.flipbooks.find? (fun f => f.id == doc_id) = some fb →
      ∃ resp db1, save_editor_data db doc_id
        { data with pages := some (l1 ++ e :: l2) } now nwid =
          (.ok resp, db1)) := by
  have hcc : collectedOf db doc_id { data with pages := some (l1 ++ e :: l2) } =
      collectedOf db doc_id { data with pages := some (l1 ++ l2) } := by
    show collectSave (db.pages.filter (fun p => p.flipbook_id == doc_id))
      (l1 ++ e :: l2) = collectSave
        (db.pages.filter (fun p => p.flipbook_id == doc_id)) (l1 ++ l2)
    exact collectSave_append_skip _ l2 e hskip l1
  constructor
  · cases hf : db.flipbooks.find? (fun f => f.id == doc_id) with
    | none =>
      simp only [save_editor_data]
      rw [hf]
    | some fb =>
      rw [save_editor_data_eq db doc_id _ now nwid fb hf,
        save_editor_data_eq db doc_id _ now nwid fb hf, hcc]
  · intro fb hf
    exact ⟨_, _, save_editor_data_eq db doc_id _ now nwid fb hf⟩

/-- C10, witnessed: an entry naming the nonexistent page 99 is skipped and
the save still succeeds and equals the save without it. -/
theorem save_editor_skips_witness :
    save_editor_data c6Db "d"
        ⟨none, none, some ([] ++ (⟨some 99, some []⟩ : PageEntry) :: [c6Entry])⟩
        9 10 =
      save_editor_data c6Db "d" ⟨none, none, some ([] ++ [c6Entry])⟩ 9 10 ∧
    ∃ resp db1, save_editor_data c6Db "d"
        ⟨none, none, some ([] ++ (⟨some 99, some []⟩ : PageEntry) :: [c6Entry])⟩
        9 10 = (.ok resp, db1) := by
  obtain ⟨h1, h2⟩ := save_editor_skips c6Db "d" ⟨none, none, none⟩ 9 10 []
    [c6Entry] ⟨some 99, some []⟩ (Or.inr ⟨99, rfl, Or.inr rfl⟩)
  exact ⟨h1, h2 c6Fb rfl⟩

end OpenFlip
